import Mathlib

/-!
# Verification of the spark8t backend / registry core

Shallow embedding of the `spark8t` service-account toolkit:
the cluster backends (`KubeInterface`, the kubectl command backend, and
`LightKube`, the structured-client backend) and the
`K8sServiceAccountRegistry` built on top of them.

The cluster is modelled as an in-memory list of Kubernetes objects
(listing order = list order).  Python exceptions are modelled with an
explicit error type, and every operation that can raise returns
`Except PyError _`.  The base64 wire encoding of secret values is
modelled as the identity at the backend boundary, matching the spec's
contract that callers above the backend never see the wire encoding.
-/

namespace Spark8t

/-- Resource kinds, from `spark8t.domain.KubernetesResourceType`. -/
inductive KubernetesResourceType where
  | SERVICEACCOUNT
  | ROLE
  | ROLEBINDING
  | SECRET
  | SECRET_GENERIC
  | NAMESPACE
deriving DecidableEq, Repr

/-- Python exceptions raised by the embedded code, from `spark8t.exceptions`
(K8sResourceNotFound, AccountNotFound) together with the built-in exceptions
(`ValueError`, `KeyError`, `IndexError`, `NotImplementedError`) and the two
transport errors (`subprocess.CalledProcessError` carrying the process output
and `lightkube ApiError` carrying the HTTP status code). -/
inductive PyError where
  | k8sResourceNotFound (name : String) (kind : KubernetesResourceType)
  | accountNotFound (id : String)
  | valueError (msg : String)
  | keyError (key : String)
  | indexError
  | notImplementedError (msg : String)
  | calledProcessError (stdout : String)
  | apiError (code : Nat) (msg : String)
deriving DecidableEq, Repr

/-- Modelled from the spec: `spark8t.literals` is not under `src/`; the
managed-by marker label name ("a label distinguishing accounts owned by this
system from unrelated cluster objects"). -/
def MANAGED_BY_LABELNAME : String := "app.kubernetes.io/managed-by"

/-- Modelled from the spec: `spark8t.literals` is not under `src/`; the
product label value used as the managed-by marker value and as the prefix of
configuration secret names (`"<product>-sa-conf-" + name`). -/
def SPARK8S_LABEL : String := "spark8t"

/-- Modelled from the spec: `spark8t.literals` is not under `src/`; the
"primary" label name marking the elected primary account. -/
def PRIMARY_LABELNAME : String := "spark8t-primary"

/-- Modelled from the spec: `PropertyFile` (in `spark8t.utils`, not under
`src/`) is an ordered key→value text mapping; modelled as an insertion-ordered
association list, mirroring a Python dict's insertion order. -/
structure PropertyFile where
  props : List (String × String)
deriving DecidableEq, Repr

/-- `PropertyFile.empty()`. -/
def PropertyFile.empty : PropertyFile := ⟨[]⟩

/-- The `ServiceAccount` domain dataclass from `spark8t.domain`. -/
structure ServiceAccount where
  name : String
  namespace' : String
  api_server : String
  primary : Bool
  extra_confs : PropertyFile
deriving DecidableEq, Repr

/-- `ServiceAccount.id`: `f"{self.namespace}:{self.name}"`. -/
def ServiceAccount.id (sa : ServiceAccount) : String :=
  sa.namespace' ++ ":" ++ sa.name

/-! ## Percent-encoding serializer

Modelled from the spec: `PercentEncodingSerializer` (in `spark8t.utils`, not
under `src/`) is "a reversible mapping from arbitrary configuration-key text
to a charset-safe key name", instantiated by the registry with the indicator
character `"_"` (`PercentEncodingSerializer("_")`).  We model it as: ASCII
letters, digits and `-` pass through; every other character `c` (including the
indicator `_` itself, `.` and `/`) is rendered as the indicator, the decimal
digits of the code point of `c` (little-endian), and a closing indicator. -/

/-- Characters that serialize to themselves: ASCII letters, digits, `-`. -/
def safeChar (c : Char) : Bool :=
  c.isAlpha || c.isDigit || c == '-'

/-- Render one decimal digit (`0 ≤ d ≤ 9`) as a character. -/
def digitChar (d : Nat) : Char := Char.ofNat (48 + d)

/-- Parse one decimal digit character back to its value. -/
def charDigit (c : Char) : Nat := c.toNat - 48

/-- Serialize a single character of a configuration key. -/
def serializeChar (c : Char) : List Char :=
  if safeChar c then [c]
  else '_' :: ((Nat.digits 10 c.toNat).map digitChar ++ ['_'])

/-- Serialize a configuration key, character by character. -/
def serializeL : List Char → List Char
  | [] => []
  | c :: t => serializeChar c ++ serializeL t

/-- `PercentEncodingSerializer.serialize`, modelled from the spec. -/
def PercentEncodingSerializer.serialize (s : String) : String :=
  ⟨serializeL s.data⟩

/-- Dropping a prefix can only shorten a list. -/
theorem length_dropWhile_le (p : Char → Bool) (l : List Char) :
    (l.dropWhile p).length ≤ l.length := by
  induction l with
  | nil => simp [List.dropWhile]
  | cons x xs ih =>
    by_cases hx : p x
    · simp only [List.dropWhile, hx, List.length_cons]; omega
    · simp only [List.dropWhile, hx]; simp

/-- Deserialize a stored secret key back to the configuration key. -/
def deserializeL : List Char → List Char
  | [] => []
  | c :: t =>
    if c = '_' then
      let ds := t.takeWhile Char.isDigit
      let c' := Char.ofNat (Nat.ofDigits 10 (ds.map charDigit))
      match h : t.dropWhile Char.isDigit with
      | '_' :: t' => c' :: deserializeL t'
      | _ => c' :: deserializeL (t.dropWhile Char.isDigit)
  else c :: deserializeL t
termination_by l => l.length
decreasing_by
  · have h1 : (t.dropWhile Char.isDigit).length ≤ t.length :=
      length_dropWhile_le Char.isDigit t
    have h2 : ('_' :: t').length ≤ t.length := h ▸ h1
    simp at h2 ⊢
    omega
  · have h1 : (t.dropWhile Char.isDigit).length ≤ t.length :=
      length_dropWhile_le Char.isDigit t
    simp
    omega
  · simp

/-- `PercentEncodingSerializer.deserialize`, modelled from the spec. -/
def PercentEncodingSerializer.deserialize (s : String) : String :=
  ⟨deserializeL s.data⟩

/-! ## Cluster state model

The cluster is a list of Kubernetes objects; listing order is list order.
`labels = none` models an object whose metadata carries no `labels` field at
all (as in the yaml the backends hand to the registry).  Secret `data` holds
the domain-level values: the base64 wire encoding is applied on write and
removed on read by both backends (spec §6), so it is modelled as the
identity at this boundary. -/

/-- One Kubernetes object as the backends expose it to the registry. -/
structure K8sObject where
  kind : KubernetesResourceType
  name : String
  ns : String
  labels : Option (List (String × String))
  data : List (String × String)
deriving DecidableEq, Repr

/-- The cluster: a list of objects in listing order. -/
abbrev K8sState := List K8sObject

/-- `kubectl create secret generic` and the lightkube `Secret` class both
produce plain `Secret` objects; the `SECRET_GENERIC` kind is only a creation
dialect. -/
def normKind : KubernetesResourceType → KubernetesResourceType
  | .SECRET_GENERIC => .SECRET
  | k => k

/-- Does the object answer to this (kind, name, namespace) reference?
`NAMESPACE` is cluster-scoped, every other kind in the enum is
namespace-scoped (spec §3). -/
def matchesObj (o : K8sObject) (k : KubernetesResourceType) (name ns : String) : Bool :=
  o.kind == k && o.name == name && (k == .NAMESPACE || o.ns == ns)

/-- First object answering to the reference, in listing order. -/
def findObj (s : K8sState) (k : KubernetesResourceType) (name ns : String) :
    Option K8sObject :=
  s.find? (fun o => matchesObj o k name ns)

/-- Remove every object answering to the reference. -/
def removeObjs (s : K8sState) (k : KubernetesResourceType) (name ns : String) : K8sState :=
  s.filter (fun o => !(matchesObj o k name ns))

/-- Apply a label-map transformation to every object answering to the
reference. -/
def updateLabels (s : K8sState) (k : KubernetesResourceType) (name ns : String)
    (f : Option (List (String × String)) → Option (List (String × String))) : K8sState :=
  s.map (fun o => if matchesObj o k name ns then { o with labels := f o.labels } else o)

/-- Insert or overwrite a key in an association list, keeping its position
(a Python dict keeps insertion order on overwrite). -/
def setEntry : List (String × String) → String → String → List (String × String)
  | [], k, v => [(k, v)]
  | (k', v') :: t, k, v => if k' == k then (k, v) :: t else (k', v') :: setEntry t k v

/-- The label map of an object, empty when the metadata has no labels field. -/
def objLabels (o : K8sObject) : List (String × String) :=
  o.labels.getD []

/-- `namespace or self.namespace`: both backends fall back to the
context-derived default namespace, which is `"default"` for a context that
sets none (AbstractKubeInterface.namespace). -/
def resolveNs (ns : Option String) : String := ns.getD "default"

/-- Python's `str.split(sep)` for a one-character separator. -/
def splitChar (sep : Char) : List Char → List (List Char)
  | [] => [[]]
  | c :: t =>
    if c = sep then [] :: splitChar sep t
    else
      match splitChar sep t with
      | h :: t' => (c :: h) :: t'
      | [] => [[c]]

/-- Python's `s.split(sep)` on strings. -/
def pySplit (s : String) (sep : Char) : List String :=
  (splitChar sep s.data).map String.mk

/-- `namespace, name = account_id.split(":")`: tuple unpacking raises
`ValueError` unless the split yields exactly two parts. -/
def split2 (s : String) : Except PyError (String × String) :=
  match pySplit s ':' with
  | [a, b] => .ok (a, b)
  | _ => .error (.valueError "values to unpack")

/-- Parse a `key=value` label string at its first `=`; `none` when there is
no `=` (Python indexing into the fragments would raise IndexError). -/
def labelKV (label : String) : Option (String × String) :=
  match pySplit label '=' with
  | k :: v :: _ => some (k, v)
  | _ => none

/-- Does `sub` occur inside `l` (Python's `sub in s` on strings)? -/
def hasInfix (sub : List Char) : List Char → Bool
  | [] => sub.isEmpty
  | c :: t => sub.isPrefixOf (c :: t) || hasInfix sub t

/-- Python's `sub in s` on strings. -/
def pyIn (sub s : String) : Bool := hasInfix sub.data s.data

/-- The stdout `kubectl` produces for a missing target, scanned by
`KubeInterface.get_service_account` for the `"NotFound"` marker. -/
def kubectlNotFoundOut (kindword name : String) : String :=
  "Error from server (NotFound): " ++ kindword ++ " \"" ++ name ++ "\" not found"

/-- A `kubectl -l` selector: `key=value` tests equality, a bare `key` tests
existence. The registry only ever passes `key=value`. -/
def kubectlSelectorMatch (sel : String) (labels : List (String × String)) : Bool :=
  match pySplit sel '=' with
  | [k] => (labels.lookup k).isSome
  | [k, v] => labels.lookup k == some v
  | _ => false

/-- Modelled from the spec: `PropertyFile.is_line_parsable` /
`parse_property_line` (in `spark8t.utils`, not under `src/`) parse the label
wire shape `"key=value"` (spec §6); unparsable lines (no `=`) are skipped by
`LightKube.get_service_accounts`. -/
def parse_property_line (l : String) : Option (String × String) := labelKV l

/-! ## Command backend (`KubeInterface`, kubectl) -/

/-- `KubeInterface.get_service_account`: run `kubectl get serviceaccount`,
catch `CalledProcessError`, and re-raise `K8sResourceNotFound` when the
process output carries the `NotFound` marker. -/
def kubectl_get_service_account (account_id ns : String) (s : K8sState) :
    Except PyError K8sObject :=
  match (match findObj s .SERVICEACCOUNT account_id ns with
         | some o => Except.ok o
         | none => Except.error (PyError.calledProcessError
             (kubectlNotFoundOut "serviceaccounts" account_id))) with
  | .ok o => .ok o
  | .error (.calledProcessError out) =>
    if pyIn "NotFound" out then
      .error (.k8sResourceNotFound account_id .SERVICEACCOUNT)
    else .error (.calledProcessError out)
  | .error e => .error e

/-- `KubeInterface.get_service_accounts`: `-A` (all namespaces) when no
namespace is given, `-n namespace` otherwise; `-l` selectors AND-filter. -/
def kubectl_get_service_accounts (ns : Option String) (labels : List String)
    (s : K8sState) : Except PyError (List K8sObject) :=
  .ok (s.filter (fun o =>
    o.kind == .SERVICEACCOUNT
    && (match ns with | none => true | some n => o.ns == n)
    && labels.all (fun l => kubectlSelectorMatch l (objLabels o))))

/-- `KubeInterface.get_secret`: `--ignore-not-found` makes the command
succeed with empty output for a missing secret, which the emptiness check
turns into `K8sResourceNotFound`; values are base64-decoded before return. -/
def kubectl_get_secret (name : String) (ns : Option String) (s : K8sState) :
    Except PyError K8sObject :=
  match findObj s .SECRET name (resolveNs ns) with
  | some o => .ok o
  | none => .error (.k8sResourceNotFound name .SECRET)

/-- `KubeInterface.set_label`: `kubectl label TYPE NAME key=value`; a missing
target makes the subprocess fail. -/
def kubectl_set_label (k : KubernetesResourceType) (name label : String)
    (ns : Option String) (s : K8sState) : Except PyError K8sState :=
  match findObj s (normKind k) name (resolveNs ns) with
  | none => .error (.calledProcessError (kubectlNotFoundOut "resource" name))
  | some _ =>
    match labelKV label with
    | some (lk, lv) =>
      .ok (updateLabels s (normKind k) name (resolveNs ns)
            (fun l => some (setEntry (l.getD []) lk lv)))
    | none => .error (.calledProcessError "invalid label")

/-- `KubeInterface.remove_label`: `kubectl label TYPE NAME key-`; a missing
target makes the subprocess fail, and removing a label the target does not
carry makes the CLI report `label not found` (external CLI behavior). -/
def kubectl_remove_label (k : KubernetesResourceType) (name label : String)
    (ns : Option String) (s : K8sState) : Except PyError K8sState :=
  match findObj s (normKind k) name (resolveNs ns) with
  | none => .error (.calledProcessError (kubectlNotFoundOut "resource" name))
  | some o =>
    if ((objLabels o).lookup label).isSome then
      .ok (updateLabels s (normKind k) name (resolveNs ns)
            (fun l => some ((l.getD []).filter (fun kv => kv.1 != label))))
    else .error (.calledProcessError "label not found")

/-- `KubeInterface.create`: `kubectl create TYPE NAME …`; an existing target
makes the subprocess fail with `AlreadyExists`.  `payload` carries the
key→value content of a `--from-env-file` secret creation; the temporary
property file transport is modelled per spec as an exact transfer (the
property-file format itself is out of scope, spec §1).  Freshly created
objects carry no labels: the registry labels them in a separate step. -/
def kubectl_create (k : KubernetesResourceType) (name : String) (ns : Option String)
    (payload : List (String × String)) (s : K8sState) : Except PyError K8sState :=
  match findObj s (normKind k) name (resolveNs ns) with
  | some _ => .error (.calledProcessError "AlreadyExists")
  | none => .ok (s ++ [⟨normKind k, name, resolveNs ns, none, payload⟩])

/-- `KubeInterface.delete`: `kubectl delete TYPE NAME --ignore-not-found`;
never fails on a missing target. -/
def kubectl_delete (k : KubernetesResourceType) (name : String) (ns : Option String)
    (s : K8sState) : Except PyError K8sState :=
  .ok (removeObjs s (normKind k) name (resolveNs ns))

/-! ## Structured-client backend (`LightKube`) -/

/-- `LightKube.get_service_account`: `client.get`, translating an `ApiError`
with status 404 into `K8sResourceNotFound` and re-raising anything else. -/
def lightkube_get_service_account (account_id : String) (ns : Option String)
    (s : K8sState) : Except PyError K8sObject :=
  match (match findObj s .SERVICEACCOUNT account_id (resolveNs ns) with
         | some o => Except.ok o
         | none => Except.error (PyError.apiError 404 "not found")) with
  | .ok o => .ok o
  | .error (.apiError code msg) =>
    if code == 404 then .error (.k8sResourceNotFound account_id .SERVICEACCOUNT)
    else .error (.apiError code msg)
  | .error e => .error e

/-- `LightKube.get_service_accounts`: a falsy namespace (None or `""`) is
replaced by the literal `"default"`, so the listing is always scoped to one
namespace; parsable `key=value` selectors are AND-combined. -/
def lightkube_get_service_accounts (ns : Option String) (labels : List String)
    (s : K8sState) : Except PyError (List K8sObject) :=
  let filters := labels.filterMap parse_property_line
  let n := match ns with
    | none => "default"
    | some x => if x == "" then "default" else x
  .ok (s.filter (fun o =>
    o.kind == .SERVICEACCOUNT && o.ns == n
    && filters.all (fun kv => (objLabels o).lookup kv.1 == some kv.2)))

/-- `LightKube.get_secret`: a plain `client.get`, so a missing secret
propagates the transport's 404 `ApiError` untranslated; values are
base64-decoded before return. -/
def lightkube_get_secret (name : String) (ns : Option String) (s : K8sState) :
    Except PyError K8sObject :=
  match findObj s .SECRET name (resolveNs ns) with
  | some o => .ok o
  | none => .error (.apiError 404 "not found")

/-- `LightKube.set_label`: split the label at `=` (IndexError when there is
no `=`), then merge-patch the labels of a service account, role or role
binding; other kinds raise NotImplementedError; a missing target is a 404. -/
def lightkube_set_label (k : KubernetesResourceType) (name label : String)
    (ns : Option String) (s : K8sState) : Except PyError K8sState :=
  match labelKV label with
  | none => .error .indexError
  | some (lk, lv) =>
    if k == .SERVICEACCOUNT || k == .ROLE || k == .ROLEBINDING then
      match findObj s k name (resolveNs ns) with
      | none => .error (.apiError 404 "not found")
      | some _ =>
        .ok (updateLabels s k name (resolveNs ns)
              (fun l => some (setEntry (l.getD []) lk lv)))
    else .error (.notImplementedError "label setting not supported")

/-- `LightKube.remove_label`: a JSON-patch `remove` on the label's path for a
service account, role or role binding; other kinds raise
NotImplementedError; a missing target is a 404, and removing a path the
target does not carry fails with the transport's 422 (a JSON-patch `remove`
of a nonexistent path is an error). -/
def lightkube_remove_label (k : KubernetesResourceType) (name label : String)
    (ns : Option String) (s : K8sState) : Except PyError K8sState :=
  if k == .SERVICEACCOUNT || k == .ROLE || k == .ROLEBINDING then
    match findObj s k name (resolveNs ns) with
    | none => .error (.apiError 404 "not found")
    | some o =>
      if ((objLabels o).lookup label).isSome then
        .ok (updateLabels s k name (resolveNs ns)
              (fun l => some ((l.getD []).filter (fun kv => kv.1 != label))))
      else .error (.apiError 422 "remove operation does not apply")
  else .error (.notImplementedError "label setting not supported")

/-- `LightKube.create`: typed objects built from manifest templates (SA,
Role, RoleBinding; templates are not under `src/`, modelled per spec §4.1 as
unlabeled objects) or directly from configuration entries (Secret
`stringData`); an existing target is the transport's 409. -/
def lightkube_create (k : KubernetesResourceType) (name : String) (ns : Option String)
    (payload : List (String × String)) (s : K8sState) : Except PyError K8sState :=
  match findObj s (normKind k) name (resolveNs ns) with
  | some _ => .error (.apiError 409 "already exists")
  | none => .ok (s ++ [⟨normKind k, name, resolveNs ns, none, payload⟩])

/-- `LightKube.delete`: a plain `client.delete` for each kind in the enum,
so a missing target propagates the transport's 404 `ApiError`. -/
def lightkube_delete (k : KubernetesResourceType) (name : String) (ns : Option String)
    (s : K8sState) : Except PyError K8sState :=
  match findObj s (normKind k) name (resolveNs ns) with
  | none => .error (.apiError 404 "not found")
  | some _ => .ok (removeObjs s (normKind k) name (resolveNs ns))

/-! ## Backend dispatch -/

/-- The two interchangeable backend implementations (spec §2). -/
inductive Backend where
  | kubectl
  | lightkube
deriving DecidableEq, Repr

/-- The api-server endpoint both backends resolve from the kube config;
orthogonal to the registry claims, modelled as a constant. -/
def apiServer : String := "https://10.152.183.1:443"

def backend_get_service_account (b : Backend) (name ns : String) (s : K8sState) :
    Except PyError K8sObject :=
  match b with
  | .kubectl => kubectl_get_service_account name ns s
  | .lightkube => lightkube_get_service_account name (some ns) s

def backend_get_service_accounts (b : Backend) (ns : Option String)
    (labels : List String) (s : K8sState) : Except PyError (List K8sObject) :=
  match b with
  | .kubectl => kubectl_get_service_accounts ns labels s
  | .lightkube => lightkube_get_service_accounts ns labels s

def backend_get_secret (b : Backend) (name : String) (ns : Option String)
    (s : K8sState) : Except PyError K8sObject :=
  match b with
  | .kubectl => kubectl_get_secret name ns s
  | .lightkube => lightkube_get_secret name ns s

def backend_set_label (b : Backend) (k : KubernetesResourceType)
    (name label : String) (ns : Option String) (s : K8sState) :
    Except PyError K8sState :=
  match b with
  | .kubectl => kubectl_set_label k name label ns s
  | .lightkube => lightkube_set_label k name label ns s

def backend_remove_label (b : Backend) (k : KubernetesResourceType)
    (name label : String) (ns : Option String) (s : K8sState) :
    Except PyError K8sState :=
  match b with
  | .kubectl => kubectl_remove_label k name label ns s
  | .lightkube => lightkube_remove_label k name label ns s

def backend_create (b : Backend) (k : KubernetesResourceType) (name : String)
    (ns : Option String) (payload : List (String × String)) (s : K8sState) :
    Except PyError K8sState :=
  match b with
  | .kubectl => kubectl_create k name ns payload s
  | .lightkube => lightkube_create k name ns payload s

def backend_delete (b : Backend) (k : KubernetesResourceType) (name : String)
    (ns : Option String) (s : K8sState) : Except PyError K8sState :=
  match b with
  | .kubectl => kubectl_delete k name ns s
  | .lightkube => lightkube_delete k name ns s

/-! ## Account registry (`K8sServiceAccountRegistry`) -/

/-- `K8sServiceAccountRegistry._get_secret_name`. -/
def _get_secret_name (name : String) : String :=
  SPARK8S_LABEL ++ "-sa-conf-" ++ name

/-- `K8sServiceAccountRegistry._retrieve_account_configurations`: fetch the
configuration secret, decode its keys through the serializer; any failure is
swallowed into an empty configuration. -/
def _retrieve_account_configurations (b : Backend) (name ns : String)
    (s : K8sState) : PropertyFile :=
  match backend_get_secret b (_get_secret_name name) (some ns) s with
  | .error _ => PropertyFile.empty
  | .ok o => ⟨o.data.map (fun kv => (PercentEncodingSerializer.deserialize kv.1, kv.2))⟩

/-- `K8sServiceAccountRegistry._build_service_account_from_raw`: reads the
metadata's `labels` field unconditionally (raising KeyError when the field
is absent) and marks the account primary iff the primary label key is
present. -/
def _build_service_account_from_raw (b : Backend) (o : K8sObject) (s : K8sState) :
    Except PyError ServiceAccount :=
  match o.labels with
  | none => .error (.keyError "labels")
  | some ls =>
    .ok ⟨o.name, o.ns, apiServer, (ls.lookup PRIMARY_LABELNAME).isSome,
         _retrieve_account_configurations b o.name o.ns s⟩

/-- The hydrating list comprehension in `K8sServiceAccountRegistry.all`:
left to right, raising at the first failing build. -/
def buildAll (b : Backend) (s : K8sState) : List K8sObject →
    Except PyError (List ServiceAccount)
  | [] => .ok []
  | o :: t =>
    match _build_service_account_from_raw b o s with
    | .error e => .error e
    | .ok sa =>
      match buildAll b s t with
      | .error e => .error e
      | .ok sas => .ok (sa :: sas)

/-- `K8sServiceAccountRegistry.all`: list service accounts carrying the
managed-by label and hydrate each. -/
def registry_all (b : Backend) (ns : Option String) (s : K8sState) :
    Except PyError (List ServiceAccount) :=
  match backend_get_service_accounts b ns
      [MANAGED_BY_LABELNAME ++ "=" ++ SPARK8S_LABEL] s with
  | .error e => .error e
  | .ok objs => buildAll b s objs

/-- `AbstractServiceAccountRegistry.get_primary`: first primary among
`all(namespace)`, `none` when no account or no primary exists. -/
def registry_get_primary (b : Backend) (ns : Option String) (s : K8sState) :
    Except PyError (Option ServiceAccount) :=
  match registry_all b ns s with
  | .error e => .error e
  | .ok accounts =>
    if accounts.length == 0 then .ok none
    else
      match accounts.filter (fun a => a.primary) with
      | [] => .ok none
      | p :: _ => .ok (some p)

/-- `K8sServiceAccountRegistry.get`: split the id, fetch the identity,
swallow `K8sResourceNotFound` into an empty result, hydrate otherwise. -/
def registry_get (b : Backend) (account_id : String) (s : K8sState) :
    Except PyError (Option ServiceAccount) :=
  match split2 account_id with
  | .error e => .error e
  | .ok (ns, username) =>
    match backend_get_service_account b username ns s with
    | .error (.k8sResourceNotFound _ _) => .ok none
    | .error e => .error e
    | .ok o =>
      match _build_service_account_from_raw b o s with
      | .error e => .error e
      | .ok sa => .ok (some sa)

/-- `K8sServiceAccountRegistry.set_primary`: remove the primary label from
the current primary's identity and role binding (unguarded), resolve the
target (AccountNotFound when absent), then label its identity and role
binding as primary. -/
def registry_set_primary (b : Backend) (account_id : String) (ns : Option String)
    (s : K8sState) : Except PyError (String × K8sState) :=
  match registry_get_primary b ns s with
  | .error e => .error e
  | .ok primary? =>
    match (match primary? with
           | none => Except.ok s
           | some pa =>
             match backend_remove_label b .SERVICEACCOUNT pa.name
                 PRIMARY_LABELNAME (some pa.namespace') s with
             | .error e => Except.error e
             | .ok s1 =>
               backend_remove_label b .ROLEBINDING (pa.name ++ "-role-binding")
                 PRIMARY_LABELNAME (some pa.namespace') s1) with
    | .error e => .error e
    | .ok s2 =>
      match registry_get b account_id s2 with
      | .error e => .error e
      | .ok none => .error (.accountNotFound account_id)
      | .ok (some sa) =>
        match backend_set_label b .SERVICEACCOUNT sa.name
            (PRIMARY_LABELNAME ++ "=True") (some sa.namespace') s2 with
        | .error e => .error e
        | .ok s3 =>
          match backend_set_label b .ROLEBINDING (sa.name ++ "-role-binding")
              (PRIMARY_LABELNAME ++ "=True") (some sa.namespace') s3 with
          | .error e => .error e
          | .ok s4 => .ok (account_id, s4)

/-- `K8sServiceAccountRegistry.delete`: split the id, then attempt the four
deletions (identity, role, role binding, configuration secret)
independently, logging and swallowing each failure. -/
def registry_delete (b : Backend) (account_id : String) (s : K8sState) :
    Except PyError (String × K8sState) :=
  match split2 account_id with
  | .error e => .error e
  | .ok (ns, name) =>
    let s1 := match backend_delete b .SERVICEACCOUNT name (some ns) s with
      | .ok s' => s' | .error _ => s
    let s2 := match backend_delete b .ROLE (name ++ "-role") (some ns) s1 with
      | .ok s' => s' | .error _ => s1
    let s3 := match backend_delete b .ROLEBINDING (name ++ "-role-binding")
        (some ns) s2 with
      | .ok s' => s' | .error _ => s2
    let s4 := match backend_delete b .SECRET (_get_secret_name name) (some ns) s3 with
      | .ok s' => s' | .error _ => s3
    .ok (account_id, s4)

/-- `K8sServiceAccountRegistry._create_account_configuration`: delete any
pre-existing configuration secret (failures swallowed), then create a fresh
secret whose keys are serializer-encoded (the temporary property file
transport is modelled per spec as an exact key→value transfer). -/
def _create_account_configuration (b : Backend) (sa : ServiceAccount)
    (s : K8sState) : Except PyError K8sState :=
  let secret_name := _get_secret_name sa.name
  let s1 := match backend_delete b .SECRET secret_name (some sa.namespace') s with
    | .ok s' => s' | .error _ => s
  backend_create b .SECRET_GENERIC secret_name (some sa.namespace')
    (sa.extra_confs.props.map (fun kv => (PercentEncodingSerializer.serialize kv.1, kv.2))) s1

/-- `K8sServiceAccountRegistry.set_configurations`: split the id and replace
the account's configuration secret wholesale. -/
def registry_set_configurations (b : Backend) (account_id : String)
    (confs : PropertyFile) (s : K8sState) : Except PyError (String × K8sState) :=
  match split2 account_id with
  | .error e => .error e
  | .ok (ns, name) =>
    match _create_account_configuration b ⟨name, ns, apiServer, false, confs⟩ s with
    | .error e => .error e
    | .ok s' => .ok (account_id, s')

/-! ## Kube config and `select_by_master`

`AbstractKubeInterface.select_by_master` (duplicated verbatim as
`KubeInterface.select_by_master`) works on the parsed kube config. -/

/-- One entry of the kube config `clusters` list: `{name, cluster:{server}}`. -/
structure ClusterEntry where
  name : String
  server : String
deriving DecidableEq, Repr

/-- One entry of the kube config `contexts` list:
`{name, context:{cluster, …}}`. -/
structure ContextEntry where
  name : String
  cluster : String
deriving DecidableEq, Repr

/-- The kube config shape `select_by_master` consumes. -/
structure KubeConfigModel where
  clusters : List ClusterEntry
  contexts : List ContextEntry
deriving DecidableEq, Repr

/-- `select_by_master` either returns `self` unchanged or a new backend
bound to another context (`with_context`). -/
inductive SelectResult where
  | self
  | withContext (contextName : String)
deriving DecidableEq, Repr

/-- The dict comprehension `{cluster["name"]: cluster["cluster"]["server"]}`;
a Python dict built by insertion, later duplicates overwriting earlier. -/
def pyDictOf (cs : List ClusterEntry) : List (String × String) :=
  cs.foldl (fun d c => setEntry d c.name c.server) []

/-- `select_by_master`: resolve each context's cluster server (a dangling
cluster reference raises KeyError), collect the contexts on the requested
endpoint, fail with AccountNotFound when there are none, return self when
the current context is among them, else rebind to the first. -/
def select_by_master (cfg : KubeConfigModel) (contextName master : String) :
    Except PyError SelectResult :=
  match cfg.contexts.foldr (fun ctx acc =>
      match (pyDictOf cfg.clusters).lookup ctx.cluster with
      | some server => match acc with
        | Except.ok rest => Except.ok ((ctx.name, server) :: rest)
        | Except.error e => Except.error e
      | none => Except.error (PyError.keyError ctx.cluster)) (Except.ok []) with
  | .error e => .error e
  | .ok resolved =>
    match (resolved.filter (fun p => p.2 == master)).map (fun p => p.1) with
    | [] => .error (.accountNotFound master)
    | c :: rest =>
      if (c :: rest).contains contextName then .ok .self
      else .ok (.withContext c)

/-! ## Statement vocabulary

Helper definitions used only to state properties about the embedded code. -/

/-- The identifying key of an object; cluster-scoped namespaces disregard
the namespace component. -/
def objKey (o : K8sObject) : KubernetesResourceType × String × String :=
  (o.kind, o.name, if o.kind == .NAMESPACE then "" else o.ns)

/-- A well-formed cluster holds at most one object per key. -/
def NodupKeys (s : K8sState) : Prop :=
  (s.map objKey).Nodup

/-- A service-account object carrying the managed-by marker. -/
def isManagedSA (o : K8sObject) : Bool :=
  o.kind == .SERVICEACCOUNT
  && ((objLabels o).lookup MANAGED_BY_LABELNAME == some SPARK8S_LABEL)

/-- An object carrying the primary label (any value). -/
def isPrimaryLabeled (o : K8sObject) : Bool :=
  ((objLabels o).lookup PRIMARY_LABELNAME).isSome

/-- The account `_build_service_account_from_raw` produces for an object
whose labels are present. -/
def accountOf (b : Backend) (s : K8sState) (o : K8sObject) : ServiceAccount :=
  ⟨o.name, o.ns, apiServer, ((objLabels o).lookup PRIMARY_LABELNAME).isSome,
   _retrieve_account_configurations b o.name o.ns s⟩

/-- A managed service-account object of namespace `ns` named `name`. -/
def saObj (name ns : String) (ls : Option (List (String × String))) : K8sObject :=
  ⟨.SERVICEACCOUNT, name, ns, ls, []⟩

/-- A role-binding object of namespace `ns` named `name`. -/
def rbObj (name ns : String) (ls : Option (List (String × String))) : K8sObject :=
  ⟨.ROLEBINDING, name, ns, ls, []⟩

/-- The server endpoint a context refers to through the cluster dict. -/
def ctxServer (cfg : KubeConfigModel) (ctx : ContextEntry) : Option String :=
  (pyDictOf cfg.clusters).lookup ctx.cluster

/-- The single namespace the structured-client listing always scopes to. -/
def lightkubeNs (ns : Option String) : String :=
  match ns with
  | none => "default"
  | some x => if x == "" then "default" else x

/-- The service accounts `backend_get_service_accounts` lists for the
registry's managed-by filter: the kubectl backend scopes to one namespace
only when one is given, the lightkube backend always scopes to one
namespace, substituting `"default"` for a falsy one. -/
def scopePred (b : Backend) (ns : Option String) (o : K8sObject) : Bool :=
  match b with
  | .kubectl =>
    o.kind == .SERVICEACCOUNT
    && (match ns with | none => true | some n => o.ns == n)
    && ((objLabels o).lookup MANAGED_BY_LABELNAME == some SPARK8S_LABEL)
  | .lightkube =>
    o.kind == .SERVICEACCOUNT
    && o.ns == lightkubeNs ns
    && ((objLabels o).lookup MANAGED_BY_LABELNAME == some SPARK8S_LABEL)

/-- The managed-by marker label pair. -/
def mgLbl : String × String := (MANAGED_BY_LABELNAME, SPARK8S_LABEL)

/-- The primary label pair as `set_primary` writes it. -/
def prLbl : String × String := (PRIMARY_LABELNAME, "True")

/-- A cluster with managed primaries in two namespaces: `q` is primary in
`other`, `p` is primary in `ns`, and `a`, `b` are managed non-primary
accounts of `ns`; every role binding exists and mirrors its identity's
primary label. -/
def c1CexState : K8sState :=
  [ saObj "q" "other" (some [mgLbl, prLbl])
  , saObj "p" "ns" (some [mgLbl, prLbl])
  , saObj "a" "ns" (some [mgLbl])
  , saObj "b" "ns" (some [mgLbl])
  , rbObj "q-role-binding" "other" (some [prLbl])
  , rbObj "p-role-binding" "ns" (some [prLbl])
  , rbObj "a-role-binding" "ns" (some [])
  , rbObj "b-role-binding" "ns" (some []) ]

/-- Run `set_primary(ns:a)` then `set_primary(ns:b)` through the command
backend on `c1CexState` and report whether `a` and `b` carry the primary
label afterwards, and which account `get_primary("ns")` elects. -/
def c1CexRun : Option (Bool × Bool × Option String) :=
  match registry_set_primary .kubectl ("ns" ++ ":" ++ "a") none c1CexState with
  | .error _ => none
  | .ok (_, s1) =>
    match registry_set_primary .kubectl ("ns" ++ ":" ++ "b") none s1 with
    | .error _ => none
    | .ok (_, s2) =>
      some
        ( (match findObj s2 .SERVICEACCOUNT "a" "ns" with
           | some o => isPrimaryLabeled o | none => false)
        , (match findObj s2 .SERVICEACCOUNT "b" "ns" with
           | some o => isPrimaryLabeled o | none => false)
        , (match registry_get_primary .kubectl (some "ns") s2 with
           | .ok (some acc) => some acc.name | _ => none) )

/-- A cluster holding exactly the managed accounts `a` and `b` of namespace
`ns` with their role bindings and no primary anywhere. -/
def c1WitState : K8sState :=
  [ saObj "a" "ns" (some [mgLbl])
  , saObj "b" "ns" (some [mgLbl])
  , rbObj "a-role-binding" "ns" (some [])
  , rbObj "b-role-binding" "ns" (some []) ]

/-! ## The serializer round trip -/

/-- Decimal digits below 10 render as digit characters. -/
theorem isDigit_digitChar {d : Nat} (h : d < 10) : (digitChar d).isDigit = true := by
  interval_cases d <;> decide

/-- Parsing a rendered digit recovers the digit. -/
theorem charDigit_digitChar {d : Nat} (h : d < 10) : charDigit (digitChar d) = d := by
  interval_cases d <;> decide

/-- The indicator `_` is not a digit character. -/
theorem isDigit_underscore : Char.isDigit '_' = false := by decide

/-- The indicator `_` is not a safe character. -/
theorem safeChar_underscore : safeChar '_' = false := by decide

/-- Scanning digits through a rendered digit block stops exactly at the
closing indicator. -/
theorem scan_digits_append (ds : List Nat) (h : ∀ d ∈ ds, d < 10) (t : List Char) :
    (ds.map digitChar ++ '_' :: t).takeWhile Char.isDigit = ds.map digitChar ∧
    (ds.map digitChar ++ '_' :: t).dropWhile Char.isDigit = '_' :: t := by
  induction ds with
  | nil =>
    simp [List.takeWhile, List.dropWhile, isDigit_underscore]
  | cons d ds ih =>
    have hd : d < 10 := h d (List.mem_cons_self d ds)
    have hds : ∀ x ∈ ds, x < 10 := fun x hx => h x (List.mem_cons_of_mem d hx)
    obtain ⟨ih1, ih2⟩ := ih hds
    constructor
    · simp only [List.map_cons, List.cons_append, List.takeWhile,
        isDigit_digitChar hd, List.append_eq, ih1]
    · simp only [List.map_cons, List.cons_append, List.dropWhile,
        isDigit_digitChar hd, List.append_eq, ih2]

/-- Deserializing one serialized character peels exactly that character. -/
theorem deserializeL_serializeChar (c : Char) (rest : List Char) :
    deserializeL (serializeChar c ++ rest) = c :: deserializeL rest := by
  by_cases hc : safeChar c = true
  · have hne : c ≠ '_' := by
      intro he; rw [he, safeChar_underscore] at hc; exact Bool.noConfusion hc
    simp only [serializeChar, hc, if_true, List.cons_append, List.nil_append]
    rw [deserializeL]
    simp [hne]
  · have hlt : ∀ d ∈ Nat.digits 10 c.toNat, d < 10 :=
      fun d hd => Nat.digits_lt_base (by norm_num) hd
    obtain ⟨htake, hdrop⟩ := scan_digits_append (Nat.digits 10 c.toNat) hlt rest
    have hmap : ((Nat.digits 10 c.toNat).map digitChar).map charDigit
        = Nat.digits 10 c.toNat := by
      rw [List.map_map]
      have : ∀ d ∈ Nat.digits 10 c.toNat, (charDigit ∘ digitChar) d = id d :=
        fun d hd => charDigit_digitChar (hlt d hd)
      rw [List.map_congr_left this, List.map_id]
    simp only [serializeChar, hc, if_false, List.cons_append, List.append_assoc,
      List.singleton_append, List.nil_append, Bool.false_eq_true]
    rw [deserializeL]
    rw [if_pos rfl]
    split
    · rename_i t' heq
      rw [hdrop] at heq
      injection heq with _ ht'
      subst ht'
      simp only [htake, hmap, Nat.ofDigits_digits, Char.ofNat_toNat]
    · rename_i heq
      rw [hdrop] at heq
      exact (heq rest rfl).elim

/-- `deserialize` is a left inverse of `serialize` on character lists. -/
theorem deserializeL_serializeL (l : List Char) :
    deserializeL (serializeL l) = l := by
  induction l with
  | nil => simp [serializeL, deserializeL]
  | cons c t ih => rw [serializeL, deserializeL_serializeChar, ih]

/-- `deserialize` is a left inverse of `serialize` on every key. -/
theorem deserialize_serialize (s : String) :
    PercentEncodingSerializer.deserialize (PercentEncodingSerializer.serialize s) = s := by
  cases s with
  | mk data =>
    show String.mk (deserializeL (serializeL data)) = String.mk data
    rw [deserializeL_serializeL]

/-! ## Lemmas about Python string splitting -/

/-- `str.split(sep)` yields one more part than there are separators. -/
theorem length_splitChar (sep : Char) (l : List Char) :
    (splitChar sep l).length = l.count sep + 1 := by
  induction l with
  | nil => simp [splitChar]
  | cons c t ih =>
    by_cases hc : c = sep
    · subst hc
      simp [splitChar, ih, List.count_cons]
    · simp only [splitChar, hc, if_neg, ite_false]
      cases hsp : splitChar sep t with
      | nil => rw [hsp] at ih; simp at ih
      | cons h t' =>
        rw [hsp] at ih
        simp only [List.length_cons] at ih ⊢
        have : (c :: t).count sep = t.count sep := by
          simp [List.count_cons, hc]
        omega

/-- Splitting a separator-free string yields the string itself. -/
theorem splitChar_no_sep (sep : Char) (l : List Char) (h : sep ∉ l) :
    splitChar sep l = [l] := by
  induction l with
  | nil => rfl
  | cons c t ih =>
    have hc : c ≠ sep := fun he => h (he ▸ List.mem_cons_self c t)
    have ht : sep ∉ t := fun hm => h (List.mem_cons_of_mem c hm)
    simp only [splitChar, hc, ite_false, ih ht]

/-- Splitting at the unique separator yields the two surrounding parts. -/
theorem splitChar_append (sep : Char) (l r : List Char) (h : sep ∉ l) :
    splitChar sep (l ++ sep :: r) = l :: splitChar sep r := by
  induction l with
  | nil => simp [splitChar]
  | cons c t ih =>
    have hc : c ≠ sep := fun he => h (he ▸ List.mem_cons_self c t)
    have ht : sep ∉ t := fun hm => h (List.mem_cons_of_mem c hm)
    simp only [List.cons_append, splitChar, hc, ite_false, List.append_eq, ih ht]

/-- A well-formed `namespace:name` id splits into its two parts. -/
theorem split2_pair (ns name : String) (h1 : ':' ∉ ns.data) (h2 : ':' ∉ name.data) :
    split2 (ns ++ ":" ++ name) = .ok (ns, name) := by
  obtain ⟨nsd⟩ := ns
  obtain ⟨named⟩ := name
  have hdata : ((String.mk nsd ++ ":" ++ String.mk named)).data
      = nsd ++ ':' :: named := by
    simp [String.data_append]
  simp only [split2, pySplit, hdata, splitChar_append ':' nsd named h1,
    splitChar_no_sep ':' named h2, List.map_cons, List.map_nil]

/-- An id without exactly one `:` makes the tuple unpacking raise. -/
theorem split2_fail (id : String) (h : id.data.count ':' ≠ 1) :
    split2 id = .error (.valueError "values to unpack") := by
  unfold split2 pySplit
  have hlen : (splitChar ':' id.data).length = id.data.count ':' + 1 :=
    length_splitChar ':' id.data
  cases hsp : splitChar ':' id.data with
  | nil => rfl
  | cons a t =>
    cases t with
    | nil => rfl
    | cons b t2 =>
      cases t2 with
      | nil =>
        rw [hsp] at hlen
        simp at hlen
        omega
      | cons c t3 => rfl

/-! ## C9: id-format precondition -/

/-- C9: `get`, `delete` and `set_configurations` split the account id on `:`
into exactly two parts; an id without exactly one `:` makes each of them
raise `ValueError` from the split, before any cluster operation. -/
theorem C9_id_format_valueerror (b : Backend) (id : String) (confs : PropertyFile)
    (s : K8sState) (h : id.data.count ':' ≠ 1) :
    registry_get b id s = .error (.valueError "values to unpack")
    ∧ registry_delete b id s = .error (.valueError "values to unpack")
    ∧ registry_set_configurations b id confs s
        = .error (.valueError "values to unpack") := by
  have hs := split2_fail id h
  refine ⟨?_, ?_, ?_⟩
  · unfold registry_get; rw [hs]
  · unfold registry_delete; rw [hs]
  · unfold registry_set_configurations; rw [hs]

/-- C9 witness: the malformed ids `"abc"` and `"a:b:c"` at a concrete
state. -/
theorem C9_id_format_valueerror_witness :
    ("abc".data.count ':' ≠ 1
      ∧ registry_get .kubectl "abc" [] = .error (.valueError "values to unpack"))
    ∧ ("a:b:c".data.count ':' ≠ 1
      ∧ registry_delete .lightkube "a:b:c" [] = .error (.valueError "values to unpack")) :=
  ⟨⟨by decide, (C9_id_format_valueerror .kubectl "abc" PropertyFile.empty [] (by decide)).1⟩,
   ⟨by decide, (C9_id_format_valueerror .lightkube "a:b:c" PropertyFile.empty [] (by decide)).2.1⟩⟩

/-! ## Lemmas about the `NotFound` marker scan -/

/-- A prefix of `l` is a prefix of `l ++ r`. -/
theorem isPrefixOf_append {α : Type} [BEq α] (sub : List α) :
    ∀ l r : List α, sub.isPrefixOf l = true → sub.isPrefixOf (l ++ r) = true := by
  induction sub with
  | nil => intro l r _; simp [List.isPrefixOf]
  | cons x xs ih =>
    intro l r h
    cases l with
    | nil => exact absurd h (by simp [List.isPrefixOf])
    | cons y ys =>
      simp only [List.isPrefixOf, Bool.and_eq_true] at h
      simp only [List.cons_append, List.isPrefixOf, Bool.and_eq_true]
      exact ⟨h.1, ih ys r h.2⟩

/-- The empty needle occurs everywhere. -/
theorem hasInfix_nil (l : List Char) : hasInfix [] l = true := by
  cases l with
  | nil => rfl
  | cons c t => simp [hasInfix, List.isPrefixOf]

/-- An infix of `l` is an infix of `l ++ r`. -/
theorem hasInfix_append_left (sub : List Char) :
    ∀ l r : List Char, hasInfix sub l = true → hasInfix sub (l ++ r) = true := by
  intro l
  induction l with
  | nil =>
    intro r h
    have : sub = [] := by
      cases sub with
      | nil => rfl
      | cons x xs => exact absurd h (by simp [hasInfix, List.isEmpty])
    subst this
    exact hasInfix_nil r
  | cons c t ih =>
    intro r h
    simp only [hasInfix, Bool.or_eq_true] at h
    simp only [List.cons_append, hasInfix, Bool.or_eq_true]
    cases h with
    | inl hp => exact Or.inl (by
        have := isPrefixOf_append sub (c :: t) r hp
        simpa using this)
    | inr hi => exact Or.inr (ih r hi)

/-- The kubectl not-found output always carries the `NotFound` marker. -/
theorem pyIn_notfound (kindword name : String) :
    pyIn "NotFound" (kubectlNotFoundOut kindword name) = true := by
  unfold pyIn kubectlNotFoundOut
  have hdata : ("Error from server (NotFound): " ++ kindword ++ " \"" ++ name
      ++ "\" not found").data
      = "Error from server (NotFound): ".data
        ++ (kindword.data ++ " \"".data ++ name.data ++ "\" not found".data) := by
    simp [String.data_append]
  rw [hdata]
  exact hasInfix_append_left _ _ _ (by decide)

/-! ## C6: registry `get` on a missing identity -/

/-- Both backends turn an absent identity into `K8sResourceNotFound`. -/
theorem registry_get_missing (b : Backend) (ns name : String) (s : K8sState)
    (h1 : ':' ∉ ns.data) (h2 : ':' ∉ name.data)
    (habs : findObj s .SERVICEACCOUNT name ns = none) :
    registry_get b (ns ++ ":" ++ name) s = .ok none := by
  cases b with
  | kubectl =>
    simp only [registry_get, split2_pair ns name h1 h2,
      backend_get_service_account, kubectl_get_service_account, habs,
      pyIn_notfound, if_true]
  | lightkube =>
    simp [registry_get, split2_pair ns name h1 h2,
      backend_get_service_account, lightkube_get_service_account, resolveNs, habs]

/-- C6: for a well-formed id whose identity object does not exist, both
backends normalize the transport's not-found condition into
`K8sResourceNotFound`, which `get` swallows into an empty result. -/
theorem C6_get_missing_returns_none (b : Backend) (ns name : String) (s : K8sState)
    (h1 : ':' ∉ ns.data) (h2 : ':' ∉ name.data)
    (habs : findObj s .SERVICEACCOUNT name ns = none) :
    registry_get b (ns ++ ":" ++ name) s = .ok none :=
  registry_get_missing b ns name s h1 h2 habs

/-- C6 witness: a state holding only an unrelated account. -/
theorem C6_get_missing_returns_none_witness :
    (':' ∉ "data".data) ∧ (':' ∉ "etl".data)
    ∧ findObj [saObj "other" "data" (some [mgLbl])] .SERVICEACCOUNT "etl" "data" = none
    ∧ registry_get .lightkube ("data" ++ ":" ++ "etl")
        [saObj "other" "data" (some [mgLbl])] = .ok none :=
  ⟨by decide, by decide, by decide,
   C6_get_missing_returns_none .lightkube "data" "etl"
     [saObj "other" "data" (some [mgLbl])] (by decide) (by decide) (by decide)⟩

/-! ## C10: hydration reads the labels field unconditionally -/

/-- C10: hydrating a fetched identity reads the metadata's labels field
unconditionally, so `get` on an existing identity without any labels field
raises KeyError; when labels are present the account is primary iff the
primary label key is present, its value ignored. -/
theorem C10_missing_labels_keyerror (b : Backend) (ns name : String) (s : K8sState)
    (o : K8sObject) (h1 : ':' ∉ ns.data) (h2 : ':' ∉ name.data)
    (hfind : findObj s .SERVICEACCOUNT name ns = some o) :
    (o.labels = none →
      registry_get b (ns ++ ":" ++ name) s = .error (.keyError "labels"))
    ∧ (∀ ls, o.labels = some ls →
      registry_get b (ns ++ ":" ++ name) s
        = .ok (some ⟨o.name, o.ns, apiServer, (ls.lookup PRIMARY_LABELNAME).isSome,
                     _retrieve_account_configurations b o.name o.ns s⟩)) := by
  have hback : backend_get_service_account b name ns s = .ok o := by
    cases b with
    | kubectl =>
      unfold backend_get_service_account kubectl_get_service_account
      rw [hfind]
    | lightkube =>
      unfold backend_get_service_account lightkube_get_service_account
      have : resolveNs (some ns) = ns := rfl
      rw [this, hfind]
  constructor
  · intro hnone
    simp only [registry_get, split2_pair ns name h1 h2, hback,
      _build_service_account_from_raw, hnone]
  · intro ls hsome
    simp only [registry_get, split2_pair ns name h1 h2, hback,
      _build_service_account_from_raw, hsome]

/-- C10 witness: an existing identity whose metadata carries no labels
field, and one carrying a primary label with a non-`True` value. -/
theorem C10_missing_labels_keyerror_witness :
    ((saObj "etl" "data" none).labels = none
      ∧ registry_get .kubectl ("data" ++ ":" ++ "etl") [saObj "etl" "data" none]
          = .error (.keyError "labels"))
    ∧ registry_get .kubectl ("data" ++ ":" ++ "x")
        [saObj "x" "data" (some [(PRIMARY_LABELNAME, "anything")])]
        = .ok (some ⟨"x", "data", apiServer, true,
                 _retrieve_account_configurations .kubectl "x" "data"
                   [saObj "x" "data" (some [(PRIMARY_LABELNAME, "anything")])]⟩) :=
  ⟨⟨rfl,
    (C10_missing_labels_keyerror .kubectl "data" "etl" [saObj "etl" "data" none]
      (saObj "etl" "data" none) (by decide) (by decide) (by decide)).1 rfl⟩,
   by
    have h := (C10_missing_labels_keyerror .kubectl "data" "x"
      [saObj "x" "data" (some [(PRIMARY_LABELNAME, "anything")])]
      (saObj "x" "data" (some [(PRIMARY_LABELNAME, "anything")]))
      (by decide) (by decide) (by decide)).2
      [(PRIMARY_LABELNAME, "anything")] rfl
    simpa using h⟩

/-! ## C3: backend-level delete on a missing target -/

/-- C3 counterexample: the structured-client backend's `delete` raises the
transport's 404 on a missing target, so backend-level delete is not
idempotent for every backend implementation. -/
theorem C3_lightkube_delete_raises :
    lightkube_delete .SERVICEACCOUNT "missing" (some "default") []
      = .error (.apiError 404 "not found") := by rfl

/-- C3 amended: the command backend's `delete` passes `--ignore-not-found`
and never raises — on a missing target it leaves the cluster unchanged for
every resource kind in the enum — while the structured-client backend's
`delete` propagates the transport's 404 `ApiError` on a missing target. -/
theorem C3_delete_missing_target (k : KubernetesResourceType) (name : String)
    (ns : Option String) (s : K8sState)
    (habs : findObj s (normKind k) name (resolveNs ns) = none) :
    kubectl_delete k name ns s = .ok s
    ∧ lightkube_delete k name ns s = .error (.apiError 404 "not found") := by
  constructor
  · unfold kubectl_delete removeObjs
    have hall : ∀ o ∈ s, matchesObj o (normKind k) name (resolveNs ns) = false := by
      intro o ho
      have := List.find?_eq_none.mp habs o ho
      simpa using this
    have : s.filter (fun o => !(matchesObj o (normKind k) name (resolveNs ns))) = s := by
      apply List.filter_eq_self.mpr
      intro o ho
      simp [hall o ho]
    rw [this]
  · unfold lightkube_delete
    rw [habs]

/-- C3 witness: deleting a missing role in a one-object cluster. -/
theorem C3_delete_missing_target_witness :
    findObj [saObj "etl" "data" (some [mgLbl])] (normKind .ROLE) "etl-role"
        (resolveNs (some "data")) = none
    ∧ kubectl_delete .ROLE "etl-role" (some "data") [saObj "etl" "data" (some [mgLbl])]
        = .ok [saObj "etl" "data" (some [mgLbl])]
    ∧ lightkube_delete .ROLE "etl-role" (some "data") [saObj "etl" "data" (some [mgLbl])]
        = .error (.apiError 404 "not found") :=
  ⟨by decide,
   (C3_delete_missing_target .ROLE "etl-role" (some "data")
     [saObj "etl" "data" (some [mgLbl])] (by decide)).1,
   (C3_delete_missing_target .ROLE "etl-role" (some "data")
     [saObj "etl" "data" (some [mgLbl])] (by decide)).2⟩

/-! ## C2: unscoped `all()` and the two backends -/

/-- C2: with no namespace argument, the registry's `all()` on the command
backend lists managed identities across all namespaces, but on the
structured-client backend `get_service_accounts` replaces the absent
namespace with the literal `"default"`, so a managed identity living in
namespace `"data"` is listed by the former and missed by the latter —
contradicting `LightKube.get_service_accounts`'s own docstring. -/
theorem C2_lightkube_unscoped_misses_other_namespaces :
    registry_all .kubectl none [saObj "etl" "data" (some [mgLbl])]
      = .ok [⟨"etl", "data", apiServer, false, PropertyFile.empty⟩]
    ∧ registry_all .lightkube none [saObj "etl" "data" (some [mgLbl])]
      = .ok [] := by
  constructor <;> rfl

/-! ## Lemmas about finding and removing objects -/

/-- After `removeObjs` nothing answers to the removed reference. -/
theorem findObj_removeObjs (s : K8sState) (k : KubernetesResourceType)
    (name ns : String) : findObj (removeObjs s k name ns) k name ns = none := by
  apply List.find?_eq_none.mpr
  intro o ho
  have := (List.mem_filter.mp ho).2
  simpa using this

/-- Searching an extended cluster continues past an unmatched prefix. -/
theorem findObj_append_of_none (s1 s2 : K8sState) (k : KubernetesResourceType)
    (name ns : String) (h : findObj s1 k name ns = none) :
    findObj (s1 ++ s2) k name ns = findObj s2 k name ns := by
  induction s1 with
  | nil => rfl
  | cons o t ih =>
    have hall := List.find?_eq_none.mp h
    have ho : matchesObj o k name ns = false := by
      simpa using hall o (List.mem_cons_self o t)
    have ht : findObj t k name ns = none := by
      apply List.find?_eq_none.mpr
      intro x hx
      exact hall x (List.mem_cons_of_mem o hx)
    simp only [findObj, List.cons_append, List.find?, ho]
    exact ih ht

/-- The delete-then-ignore-errors step of `_create_account_configuration`
leaves no secret under the target reference, for either backend. -/
theorem delete_step_clears (b : Backend) (nm n : String) (s : K8sState) :
    findObj (match backend_delete b .SECRET nm (some n) s with
             | .ok s' => s' | .error _ => s) .SECRET nm n = none := by
  cases b with
  | kubectl =>
    show findObj (removeObjs s .SECRET nm n) .SECRET nm n = none
    exact findObj_removeObjs s .SECRET nm n
  | lightkube =>
    show findObj (match lightkube_delete .SECRET nm (some n) s with
                  | .ok s' => s' | .error _ => s) .SECRET nm n = none
    unfold lightkube_delete
    cases hf : findObj s (normKind .SECRET) nm (resolveNs (some n)) with
    | none => simpa using hf
    | some o => simpa using findObj_removeObjs s .SECRET nm n

/-! ## C5: configuration round trip -/

/-- C5: `deserialize` undoes `serialize` on every key (`.` and `/`
included), and storing a configuration through `set_configurations` then
reading it back through `_retrieve_account_configurations` — the reader both
`get` and `all` hydrate from — returns identical keys and values, for either
backend. -/
theorem C5_configuration_roundtrip (b : Backend) (ns name : String)
    (confs : PropertyFile) (s : K8sState)
    (h1 : ':' ∉ ns.data) (h2 : ':' ∉ name.data) :
    (∀ k, PercentEncodingSerializer.deserialize (PercentEncodingSerializer.serialize k) = k)
    ∧ ∃ s', registry_set_configurations b (ns ++ ":" ++ name) confs s
          = .ok (ns ++ ":" ++ name, s')
        ∧ _retrieve_account_configurations b name ns s' = confs := by
  refine ⟨deserialize_serialize, ?_⟩
  have hclear := delete_step_clears b (_get_secret_name name) ns s
  refine ⟨(match backend_delete b .SECRET (_get_secret_name name) (some ns) s with
           | .ok s' => s' | .error _ => s)
          ++ [⟨.SECRET, _get_secret_name name, ns, none,
               confs.props.map (fun kv => (PercentEncodingSerializer.serialize kv.1, kv.2))⟩],
         ?_, ?_⟩
  · simp only [registry_set_configurations, split2_pair ns name h1 h2,
      _create_account_configuration]
    cases b with
    | kubectl =>
      simp only [backend_create, kubectl_create, normKind, resolveNs,
        Option.getD_some, hclear]
    | lightkube =>
      simp only [backend_create, lightkube_create, normKind, resolveNs,
        Option.getD_some, hclear]
  · unfold _retrieve_account_configurations
    have hfind : findObj
        ((match backend_delete b .SECRET (_get_secret_name name) (some ns) s with
          | .ok s' => s' | .error _ => s)
         ++ [⟨.SECRET, _get_secret_name name, ns, none,
              confs.props.map (fun kv => (PercentEncodingSerializer.serialize kv.1, kv.2))⟩])
        .SECRET (_get_secret_name name) ns
        = some ⟨.SECRET, _get_secret_name name, ns, none,
            confs.props.map (fun kv => (PercentEncodingSerializer.serialize kv.1, kv.2))⟩ := by
      rw [findObj_append_of_none _ _ _ _ _ hclear]
      simp [findObj, matchesObj, List.find?]
    have hget : backend_get_secret b (_get_secret_name name) (some ns)
        ((match backend_delete b .SECRET (_get_secret_name name) (some ns) s with
          | .ok s' => s' | .error _ => s)
         ++ [⟨.SECRET, _get_secret_name name, ns, none,
              confs.props.map (fun kv => (PercentEncodingSerializer.serialize kv.1, kv.2))⟩])
        = .ok ⟨.SECRET, _get_secret_name name, ns, none,
            confs.props.map (fun kv => (PercentEncodingSerializer.serialize kv.1, kv.2))⟩ := by
      cases b with
      | kubectl => simp only [backend_get_secret, kubectl_get_secret, resolveNs,
          Option.getD_some, hfind]
      | lightkube => simp only [backend_get_secret, lightkube_get_secret, resolveNs,
          Option.getD_some, hfind]
    rw [hget]
    obtain ⟨props⟩ := confs
    simp only [List.map_map]
    congr 1
    have : ∀ kv ∈ props,
        ((fun kv => (PercentEncodingSerializer.deserialize kv.1, kv.2))
          ∘ (fun kv => (PercentEncodingSerializer.serialize kv.1, kv.2))) kv = id kv := by
      intro kv _
      simp [deserialize_serialize]
    rw [List.map_congr_left this, List.map_id]

/-- C5 witness: a configuration whose keys carry `.`, `/` and `_`. -/
theorem C5_configuration_roundtrip_witness :
    (':' ∉ "data".data) ∧ (':' ∉ "etl".data)
    ∧ PercentEncodingSerializer.deserialize
        (PercentEncodingSerializer.serialize "spark.eventLog.dir") = "spark.eventLog.dir"
    ∧ ∃ s', registry_set_configurations .kubectl ("data" ++ ":" ++ "etl")
          ⟨[("spark.eventLog.dir", "s3a://logs/x"), ("a_b/c", "v")]⟩ []
          = .ok ("data" ++ ":" ++ "etl", s')
        ∧ _retrieve_account_configurations .kubectl "etl" "data" s'
          = ⟨[("spark.eventLog.dir", "s3a://logs/x"), ("a_b/c", "v")]⟩ := by
  have h := C5_configuration_roundtrip .kubectl "data" "etl"
    ⟨[("spark.eventLog.dir", "s3a://logs/x"), ("a_b/c", "v")]⟩ []
    (by decide) (by decide)
  exact ⟨by decide, by decide, h.1 "spark.eventLog.dir", h.2⟩

/-! ## C8: `select_by_master` -/

/-- Under a well-formed config, resolving every context's server succeeds. -/
theorem select_resolve_ok (cfg : KubeConfigModel) (ctxs : List ContextEntry)
    (hwf : ∀ ctx ∈ ctxs, (ctxServer cfg ctx).isSome = true) :
    ctxs.foldr (fun ctx acc =>
      match (pyDictOf cfg.clusters).lookup ctx.cluster with
      | some server => match acc with
        | Except.ok rest => Except.ok ((ctx.name, server) :: rest)
        | Except.error e => Except.error e
      | none => Except.error (PyError.keyError ctx.cluster)) (Except.ok [])
    = Except.ok (ctxs.map (fun ctx => (ctx.name, (ctxServer cfg ctx).getD ""))) := by
  induction ctxs with
  | nil => simp
  | cons c t ih =>
    have hc : (ctxServer cfg c).isSome = true := hwf c (List.mem_cons_self c t)
    have ht : ∀ ctx ∈ t, (ctxServer cfg ctx).isSome = true :=
      fun ctx hm => hwf ctx (List.mem_cons_of_mem c hm)
    obtain ⟨v, hv⟩ := Option.isSome_iff_exists.mp hc
    have hlv : (pyDictOf cfg.clusters).lookup c.cluster = some v := hv
    simp only [List.foldr_cons, ih ht, hlv, List.map_cons]
    rw [show ctxServer cfg c = some v from hv]
    rfl

/-- The name list `select_by_master` matches the current context against is
exactly the names of the contexts referring to the requested endpoint. -/
theorem select_names (cfg : KubeConfigModel) (master : String) :
    ∀ l : List ContextEntry, (∀ ctx ∈ l, (ctxServer cfg ctx).isSome = true) →
    ((l.map (fun ctx => (ctx.name, (ctxServer cfg ctx).getD ""))).filter
        (fun p => p.2 == master)).map (fun p => p.1)
      = (l.filter (fun ctx => ctxServer cfg ctx == some master)).map
          ContextEntry.name := by
  intro l
  induction l with
  | nil => intro _; rfl
  | cons x xs ih =>
    intro hl
    have hx := hl x (List.mem_cons_self x xs)
    obtain ⟨v, hv⟩ := Option.isSome_iff_exists.mp hx
    have hxs : ∀ ctx ∈ xs, (ctxServer cfg ctx).isSome = true :=
      fun ctx hm => hl ctx (List.mem_cons_of_mem x hm)
    have hproj : ((x.name, (ctxServer cfg x).getD "").2 == master)
        = ((ctxServer cfg x).getD "" == master) := rfl
    have hopt : (ctxServer cfg x == some master)
        = ((ctxServer cfg x).getD "" == master) := by rw [hv]; rfl
    cases hvm : ((ctxServer cfg x).getD "" == master) with
    | true =>
      simp only [List.map_cons, List.filter_cons, hproj, hopt, hvm, if_true,
        List.map_cons, ih hxs]
    | false =>
      simp only [List.map_cons, List.filter_cons, hproj, hopt, hvm,
        Bool.false_eq_true, if_false, ih hxs]

/-- C8: `select_by_master` fails with AccountNotFound when no context
refers to a cluster on the requested endpoint; returns self unchanged when
the current context is among the matching ones; and otherwise rebinds to
the first matching context — for a config whose contexts all reference
existing clusters. -/
theorem C8_select_by_master (cfg : KubeConfigModel) (ctxName master : String)
    (hwf : ∀ ctx ∈ cfg.contexts, (ctxServer cfg ctx).isSome = true) :
    (cfg.contexts.filter (fun ctx => ctxServer cfg ctx == some master) = [] →
      select_by_master cfg ctxName master = .error (.accountNotFound master))
    ∧ (∀ c cs,
        cfg.contexts.filter (fun ctx => ctxServer cfg ctx == some master) = c :: cs →
        ((ctxName ∈ (c :: cs).map ContextEntry.name →
            select_by_master cfg ctxName master = .ok .self)
         ∧ (ctxName ∉ (c :: cs).map ContextEntry.name →
            select_by_master cfg ctxName master = .ok (.withContext c.name)))) := by
  have hres := select_resolve_ok cfg cfg.contexts hwf
  have hfe : ∀ ctx ∈ cfg.contexts,
      (((ctxServer cfg ctx).getD "") == master) = (ctxServer cfg ctx == some master) := by
    intro ctx hm
    obtain ⟨v, hv⟩ := Option.isSome_iff_exists.mp (hwf ctx hm)
    rw [hv]
    rfl
  have hnames := select_names cfg master cfg.contexts hwf
  constructor
  · intro hnone
    unfold select_by_master
    rw [hres]
    simp only [hnames, hnone, List.map_nil]
  · intro c cs hsome
    constructor
    · intro hmem
      unfold select_by_master
      rw [hres]
      simp only [hnames, hsome, List.map_cons]
      have hmem' : ctxName ∈ c.name :: cs.map ContextEntry.name := by
        simpa using hmem
      rw [show (c.name :: cs.map ContextEntry.name).contains ctxName = true from
        List.elem_iff.mpr hmem']
      rfl
    · intro hnmem
      unfold select_by_master
      rw [hres]
      simp only [hnames, hsome, List.map_cons]
      have hnm : (c.name :: cs.map ContextEntry.name).contains ctxName = false := by
        cases hb : (c.name :: cs.map ContextEntry.name).contains ctxName
        · rfl
        · exact absurd (by simpa using List.elem_iff.mp hb) hnmem
      rw [hnm]
      rfl

/-- C8 witness: a two-cluster config exercising all three outcomes. -/
theorem C8_select_by_master_witness :
    (∀ ctx ∈ (⟨[⟨"c1", "https://one"⟩, ⟨"c2", "https://two"⟩],
               [⟨"ctx1", "c1"⟩, ⟨"ctx2", "c2"⟩]⟩ : KubeConfigModel).contexts,
      (ctxServer ⟨[⟨"c1", "https://one"⟩, ⟨"c2", "https://two"⟩],
               [⟨"ctx1", "c1"⟩, ⟨"ctx2", "c2"⟩]⟩ ctx).isSome = true)
    ∧ select_by_master ⟨[⟨"c1", "https://one"⟩, ⟨"c2", "https://two"⟩],
        [⟨"ctx1", "c1"⟩, ⟨"ctx2", "c2"⟩]⟩ "ctx1" "https://absent"
        = .error (.accountNotFound "https://absent")
    ∧ select_by_master ⟨[⟨"c1", "https://one"⟩, ⟨"c2", "https://two"⟩],
        [⟨"ctx1", "c1"⟩, ⟨"ctx2", "c2"⟩]⟩ "ctx1" "https://one" = .ok .self
    ∧ select_by_master ⟨[⟨"c1", "https://one"⟩, ⟨"c2", "https://two"⟩],
        [⟨"ctx1", "c1"⟩, ⟨"ctx2", "c2"⟩]⟩ "ctx1" "https://two"
        = .ok (.withContext "ctx2") := by
  refine ⟨by decide, ?_, ?_, ?_⟩
  · exact (C8_select_by_master _ "ctx1" "https://absent" (by decide)).1 (by decide)
  · exact ((C8_select_by_master _ "ctx1" "https://one" (by decide)).2
      ⟨"ctx1", "c1"⟩ [] (by decide)).1 (by decide)
  · exact ((C8_select_by_master _ "ctx1" "https://two" (by decide)).2
      ⟨"ctx2", "c2"⟩ [] (by decide)).2 (by decide)

/-! ## C4: guarded delete, unguarded relabeling -/

/-- C4 counterexample: the relabeling half of `set_primary` is not guarded.
With a previous primary whose role binding is absent, the structured-client
backend's label removal fails with the transport's 404 and `set_primary`
propagates it instead of executing the remaining steps — even though the
target account exists. -/
theorem C4_set_primary_relabel_propagates :
    registry_set_primary .lightkube ("default" ++ ":" ++ "b") none
      [saObj "p" "default" (some [mgLbl, prLbl]), saObj "b" "default" (some [mgLbl])]
      = .error (.apiError 404 "not found") := by rfl

/-- C4 amended: in Registry `delete` all four per-resource deletions are
individually guarded, so `delete` never raises for a well-formed id, on
either backend and in any cluster state; the relabeling half of
`set_primary`, however, is unguarded — a failing label removal propagates
and aborts the remaining steps. -/
theorem C4_delete_never_raises (b : Backend) (ns name : String) (s : K8sState)
    (h1 : ':' ∉ ns.data) (h2 : ':' ∉ name.data) :
    ∃ s', registry_delete b (ns ++ ":" ++ name) s = .ok (ns ++ ":" ++ name, s') := by
  simp only [registry_delete, split2_pair ns name h1 h2]
  exact ⟨_, rfl⟩

/-- C4 witness: deleting a never-created account from an empty cluster on
both backends. -/
theorem C4_delete_never_raises_witness :
    (':' ∉ "data".data) ∧ (':' ∉ "ghost".data)
    ∧ (∃ s', registry_delete .kubectl ("data" ++ ":" ++ "ghost") []
        = .ok ("data" ++ ":" ++ "ghost", s'))
    ∧ (∃ s', registry_delete .lightkube ("data" ++ ":" ++ "ghost") []
        = .ok ("data" ++ ":" ++ "ghost", s')) :=
  ⟨by decide, by decide,
   C4_delete_never_raises .kubectl "data" "ghost" [] (by decide) (by decide),
   C4_delete_never_raises .lightkube "data" "ghost" [] (by decide) (by decide)⟩

/-! ## Lemmas about labels and label updates -/

/-- Removing one key from a label map leaves the other keys' values. -/
theorem lookup_filter_ne (l : List (String × String)) (k k' : String)
    (hne : k' ≠ k) : ((l.filter (fun kv => kv.1 != k)).lookup k') = l.lookup k' := by
  induction l with
  | nil => rfl
  | cons kv t ih =>
    by_cases hk : kv.1 = k
    · have : (kv.1 != k) = false := by simp [hk]
      have hku : (k' == kv.1) = false := by
        simp only [beq_eq_false_iff_ne, ne_eq]
        rw [hk]; exact hne
      simp only [List.filter_cons, this, Bool.false_eq_true, if_false, ih,
        List.lookup, hku]
    · have : (kv.1 != k) = true := by simp [hk]
      simp only [List.filter_cons, this, if_true, List.lookup, ih]

/-- Removing a key from a label map removes it. -/
theorem lookup_filter_self (l : List (String × String)) (k : String) :
    ((l.filter (fun kv => kv.1 != k)).lookup k) = none := by
  induction l with
  | nil => rfl
  | cons kv t ih =>
    by_cases hk : kv.1 = k
    · have : (kv.1 != k) = false := by simp [hk]
      simp only [List.filter_cons, this, Bool.false_eq_true, if_false, ih]
    · have h1 : (kv.1 != k) = true := by simp [hk]
      have h2 : (k == kv.1) = false := by
        simp only [beq_eq_false_iff_ne, ne_eq]
        exact fun he => hk he.symm
      simp only [List.filter_cons, h1, if_true, List.lookup, h2, ih]

/-- Setting a key makes it present with the new value. -/
theorem lookup_setEntry_self (l : List (String × String)) (k v : String) :
    (setEntry l k v).lookup k = some v := by
  induction l with
  | nil => simp [setEntry, List.lookup]
  | cons kv t ih =>
    by_cases hk : kv.1 = k
    · have : (kv.1 == k) = true := by simp [hk]
      obtain ⟨k1, v1⟩ := kv
      simp only at this
      simp [setEntry, this, List.lookup]
    · have : (kv.1 == k) = false := by simp [hk]
      obtain ⟨k1, v1⟩ := kv
      simp only at this hk
      have h2 : (k == k1) = false := by
        simp only [beq_eq_false_iff_ne, ne_eq]
        exact fun he => hk he.symm
      simp only [setEntry, this, Bool.false_eq_true, if_false, List.lookup, h2, ih]

/-- Setting a key leaves the other keys' values. -/
theorem lookup_setEntry_ne (l : List (String × String)) (k v k' : String)
    (hne : k' ≠ k) : (setEntry l k v).lookup k' = l.lookup k' := by
  induction l with
  | nil =>
    have : (k' == k) = false := by simp [hne]
    simp [setEntry, List.lookup, this]
  | cons kv t ih =>
    obtain ⟨k1, v1⟩ := kv
    by_cases hk : k1 = k
    · have h1 : (k1 == k) = true := by simp [hk]
      have h2 : (k' == k) = false := by simp [hne]
      have h3 : (k' == k1) = false := by rw [hk]; exact h2
      simp only [setEntry, h1, if_true, List.lookup, h2, h3]
    · have h1 : (k1 == k) = false := by simp [hk]
      simp only [setEntry, h1, Bool.false_eq_true, if_false, List.lookup, ih]

/-- A label-map update does not change whether an object answers to a
reference. -/
theorem matchesObj_relabel (o : K8sObject) (x : Option (List (String × String)))
    (k : KubernetesResourceType) (n m : String) :
    matchesObj { o with labels := x } k n m = matchesObj o k n m := rfl

/-- Finding through `updateLabels` finds the transformed object. -/
theorem findObj_updateLabels (s : K8sState) (k : KubernetesResourceType)
    (n m : String) (f : Option (List (String × String)) → Option (List (String × String)))
    (k' : KubernetesResourceType) (n' m' : String) :
    findObj (updateLabels s k n m f) k' n' m'
      = (findObj s k' n' m').map
          (fun o => if matchesObj o k n m then { o with labels := f o.labels } else o) := by
  induction s with
  | nil => rfl
  | cons x t ih =>
    by_cases hm : matchesObj x k' n' m' = true
    · have hx : matchesObj (if matchesObj x k n m then { x with labels := f x.labels }
          else x) k' n' m' = true := by
        by_cases hq : matchesObj x k n m = true
        · rw [if_pos hq, matchesObj_relabel]; exact hm
        · rw [if_neg hq]; exact hm
      simp only [updateLabels, List.map_cons, findObj, List.find?, hx, hm]
      rfl
    · have hmf : matchesObj x k' n' m' = false := by
        cases hb : matchesObj x k' n' m'
        · rfl
        · exact absurd hb hm
      have hx : matchesObj (if matchesObj x k n m then { x with labels := f x.labels }
          else x) k' n' m' = false := by
        by_cases hq : matchesObj x k n m = true
        · rw [if_pos hq, matchesObj_relabel]; exact hmf
        · rw [if_neg hq]; exact hmf
      simp only [updateLabels, List.map_cons, findObj, List.find?, hx, hmf]
      exact ih

/-- An object answers to its own key reference. -/
theorem matchesObj_self (o : K8sObject) : matchesObj o o.kind o.name o.ns = true := by
  simp [matchesObj]

/-- With unique keys, `findObj` at a member's own reference returns it. -/
theorem findObj_of_mem_nodup (s : K8sState) (o : K8sObject) (hmem : o ∈ s)
    (hkind : o.kind ≠ .NAMESPACE) (hkeys : NodupKeys s) :
    findObj s o.kind o.name o.ns = some o := by
  induction s with
  | nil => exact absurd hmem (List.not_mem_nil o)
  | cons x t ih =>
    have hkeys' : objKey x ∉ t.map objKey ∧ NodupKeys t := by
      have := List.nodup_cons.mp hkeys
      exact ⟨fun hc => this.1 hc, this.2⟩
    rcases List.mem_cons.mp hmem with heq | hmem'
    · subst heq
      simp only [findObj, List.find?, matchesObj_self]
    · have hx : matchesObj x o.kind o.name o.ns = false := by
        cases hb : matchesObj x o.kind o.name o.ns
        · rfl
        · exfalso
          simp only [matchesObj, Bool.and_eq_true, Bool.or_eq_true, beq_iff_eq] at hb
          obtain ⟨⟨hk1, hn1⟩, hor⟩ := hb
          rcases hor with hns | hns
          · exact hkind hns
          · have hxkey : objKey x = objKey o := by
              unfold objKey
              rw [hk1, hn1, hns]
            exact hkeys'.1 (hxkey ▸ List.mem_map_of_mem objKey hmem')
      simp only [findObj, List.find?, hx]
      exact ih hmem' hkeys'.2

/-- A found object is a member satisfying its reference. -/
theorem findObj_mem (s : K8sState) (k : KubernetesResourceType) (n m : String)
    (o : K8sObject) (h : findObj s k n m = some o) :
    o ∈ s ∧ o.kind = k ∧ o.name = n ∧ (k = .NAMESPACE ∨ o.ns = m) := by
  have hmem := List.mem_of_find?_eq_some h
  have hp := List.find?_some h
  simp only [matchesObj, Bool.and_eq_true, Bool.or_eq_true, beq_iff_eq] at hp
  exact ⟨hmem, hp.1.1, hp.1.2, hp.2⟩

/-! ## Characterizing `all` and `get_primary` -/

/-- The registry's one `-l` selector tests the managed-by label pair. -/
theorem kubectlSelectorMatch_managed (ls : List (String × String)) :
    kubectlSelectorMatch (MANAGED_BY_LABELNAME ++ "=" ++ SPARK8S_LABEL) ls
      = (ls.lookup MANAGED_BY_LABELNAME == some SPARK8S_LABEL) := by
  have hsp : pySplit (MANAGED_BY_LABELNAME ++ "=" ++ SPARK8S_LABEL) '='
      = [MANAGED_BY_LABELNAME, SPARK8S_LABEL] := by decide
  unfold kubectlSelectorMatch
  rw [hsp]

/-- The registry's selector parses into the managed-by label pair. -/
theorem parse_managed :
    parse_property_line (MANAGED_BY_LABELNAME ++ "=" ++ SPARK8S_LABEL)
      = some (MANAGED_BY_LABELNAME, SPARK8S_LABEL) := by decide

/-- The backend listings return exactly the scope filter. -/
theorem get_service_accounts_eq (b : Backend) (ns : Option String) (s : K8sState) :
    backend_get_service_accounts b ns
        [MANAGED_BY_LABELNAME ++ "=" ++ SPARK8S_LABEL] s
      = .ok (s.filter (scopePred b ns)) := by
  cases b with
  | kubectl =>
    simp only [backend_get_service_accounts, kubectl_get_service_accounts]
    congr 1
    apply List.filter_congr
    intro o _
    simp only [List.all_cons, List.all_nil, Bool.and_true,
      kubectlSelectorMatch_managed, scopePred]
  | lightkube =>
    simp only [backend_get_service_accounts, lightkube_get_service_accounts]
    congr 1
    apply List.filter_congr
    intro o _
    simp only [List.filterMap, parse_managed, List.all_cons, List.all_nil,
      Bool.and_true, scopePred, lightkubeNs]

/-- Hydration succeeds object-wise on any scope whose members carry
labels. -/
theorem buildAll_eq (b : Backend) (s : K8sState) (l : List K8sObject)
    (hl : ∀ o ∈ l, ∃ ls, o.labels = some ls) :
    buildAll b s l = .ok (l.map (accountOf b s)) := by
  induction l with
  | nil => rfl
  | cons o t ih =>
    obtain ⟨ls, hls⟩ := hl o (List.mem_cons_self o t)
    have ht := ih (fun x hx => hl x (List.mem_cons_of_mem o hx))
    have hobj : objLabels o = ls := by simp [objLabels, hls]
    simp only [buildAll, _build_service_account_from_raw, hls, ht, List.map_cons,
      accountOf, hobj]

/-- Members of the managed scope carry labels. -/
theorem scope_labels (b : Backend) (ns : Option String) (s : K8sState) :
    ∀ o ∈ s.filter (scopePred b ns), ∃ ls, o.labels = some ls := by
  intro o hmem
  have hpred := (List.mem_filter.mp hmem).2
  cases hls : o.labels with
  | some ls => exact ⟨ls, rfl⟩
  | none =>
    exfalso
    cases b with
    | kubectl =>
      simp only [scopePred, Bool.and_eq_true, beq_iff_eq] at hpred
      have : objLabels o = [] := by simp [objLabels, hls]
      rw [this] at hpred
      exact Option.noConfusion hpred.2
    | lightkube =>
      simp only [scopePred, Bool.and_eq_true, beq_iff_eq] at hpred
      have : objLabels o = [] := by simp [objLabels, hls]
      rw [this] at hpred
      exact Option.noConfusion hpred.2

/-- `all` returns the hydrated managed scope, in listing order. -/
theorem registry_all_eq (b : Backend) (ns : Option String) (s : K8sState) :
    registry_all b ns s = .ok ((s.filter (scopePred b ns)).map (accountOf b s)) := by
  unfold registry_all
  rw [get_service_accounts_eq]
  exact buildAll_eq b s _ (scope_labels b ns s)

/-- `get_primary` returns the first primary-labeled member of the managed
scope, or nothing. -/
theorem get_primary_eq (b : Backend) (ns : Option String) (s : K8sState) :
    registry_get_primary b ns s
      = .ok (match s.filter (fun o => scopePred b ns o && isPrimaryLabeled o) with
             | [] => none
             | o :: _ => some (accountOf b s o)) := by
  unfold registry_get_primary
  rw [registry_all_eq]
  have hcomb : (s.filter (scopePred b ns)).filter isPrimaryLabeled
      = s.filter (fun o => scopePred b ns o && isPrimaryLabeled o) := by
    rw [List.filter_filter]
    apply List.filter_congr
    intro a _
    exact Bool.and_comm _ _
  have hfm : ((s.filter (scopePred b ns)).map (accountOf b s)).filter
        (fun a => a.primary)
      = ((s.filter (scopePred b ns)).filter isPrimaryLabeled).map (accountOf b s) := by
    rw [List.filter_map]
    rfl
  cases hscope : s.filter (scopePred b ns) with
  | nil =>
    have : s.filter (fun o => scopePred b ns o && isPrimaryLabeled o) = [] := by
      rw [← hcomb, hscope]
      rfl
    rw [this]
    rfl
  | cons x xs =>
    rw [hscope] at hfm
    simp only [List.map_cons] at hfm
    have hlen : ((accountOf b s x :: xs.map (accountOf b s)).length == 0) = false := by
      simp
    simp only [List.map_cons, hlen, Bool.false_eq_true, if_false]
    rw [hfm, ← hcomb, hscope]
    cases hpf : (x :: xs).filter isPrimaryLabeled with
    | nil => rfl
    | cons y ys => rfl

/-! ## Label operations succeed on present targets -/

/-- Removing a carried label from a present service account or role binding
succeeds identically on both backends. -/
theorem backend_remove_label_ok (b : Backend) (k : KubernetesResourceType)
    (hk : k = .SERVICEACCOUNT ∨ k = .ROLEBINDING)
    (name label ns' : String) (s : K8sState) (o : K8sObject)
    (hfind : findObj s k name ns' = some o)
    (hlbl : ((objLabels o).lookup label).isSome = true) :
    backend_remove_label b k name label (some ns') s
      = .ok (updateLabels s k name ns'
          (fun l => some ((l.getD []).filter (fun kv => kv.1 != label)))) := by
  have hnorm : normKind k = k := by rcases hk with h | h <;> subst h <;> rfl
  have hres : resolveNs (some ns') = ns' := rfl
  cases b with
  | kubectl =>
    simp only [backend_remove_label, kubectl_remove_label, hnorm, hres, hfind,
      hlbl, if_true]
  | lightkube =>
    have hcond : (k == KubernetesResourceType.SERVICEACCOUNT
        || k == KubernetesResourceType.ROLE
        || k == KubernetesResourceType.ROLEBINDING) = true := by
      rcases hk with h | h <;> subst h <;> rfl
    simp only [backend_remove_label, lightkube_remove_label, hcond, if_true,
      hres, hfind, hlbl]

/-- Setting the primary label on a present service account or role binding
succeeds identically on both backends. -/
theorem backend_set_label_primary_ok (b : Backend) (k : KubernetesResourceType)
    (hk : k = .SERVICEACCOUNT ∨ k = .ROLEBINDING)
    (name ns' : String) (s : K8sState) (o : K8sObject)
    (hfind : findObj s k name ns' = some o) :
    backend_set_label b k name (PRIMARY_LABELNAME ++ "=True") (some ns') s
      = .ok (updateLabels s k name ns'
          (fun l => some (setEntry (l.getD []) PRIMARY_LABELNAME "True"))) := by
  have hkv : labelKV (PRIMARY_LABELNAME ++ "=True")
      = some (PRIMARY_LABELNAME, "True") := by decide
  have hnorm : normKind k = k := by rcases hk with h | h <;> subst h <;> rfl
  have hres : resolveNs (some ns') = ns' := rfl
  cases b with
  | kubectl =>
    simp only [backend_set_label, kubectl_set_label, hnorm, hres, hfind, hkv]
  | lightkube =>
    have hcond : (k == KubernetesResourceType.SERVICEACCOUNT
        || k == KubernetesResourceType.ROLE
        || k == KubernetesResourceType.ROLEBINDING) = true := by
      rcases hk with h | h <;> subst h <;> rfl
    simp only [backend_set_label, lightkube_set_label, hkv, hcond, if_true,
      hres, hfind]

/-- A member of the managed scope is a managed service account. -/
theorem scopePred_facts (b : Backend) (ns : Option String) (o : K8sObject)
    (h : scopePred b ns o = true) :
    o.kind = .SERVICEACCOUNT
    ∧ (objLabels o).lookup MANAGED_BY_LABELNAME = some SPARK8S_LABEL := by
  cases b with
  | kubectl =>
    simp only [scopePred, Bool.and_eq_true, beq_iff_eq] at h
    exact ⟨h.1.1, h.2⟩
  | lightkube =>
    simp only [scopePred, Bool.and_eq_true, beq_iff_eq] at h
    exact ⟨h.1.1, h.2⟩

/-- Packaging the managed-service-account test. -/
theorem isManagedSA_of (o : K8sObject) (hk : o.kind = .SERVICEACCOUNT)
    (hl : (objLabels o).lookup MANAGED_BY_LABELNAME = some SPARK8S_LABEL) :
    isManagedSA o = true := by
  simp [isManagedSA, hk, hl]

/-! ## C7: `set_primary` on a missing account -/

/-- C7: for a well-formed id whose account does not exist, `set_primary`
first performs the removal of the previous primary's labels (not undone)
and then raises AccountNotFound, on either backend — provided the cluster
is well-formed: unique keys and every managed primary identity accompanied
by a primary-labeled role binding, so that the relabeling half succeeds. -/
theorem C7_set_primary_missing_account (b : Backend) (ns name : String)
    (nsArg : Option String) (s : K8sState)
    (h1 : ':' ∉ ns.data) (h2 : ':' ∉ name.data)
    (hkeys : NodupKeys s)
    (habs : findObj s .SERVICEACCOUNT name ns = none)
    (hprb : ∀ o ∈ s, isManagedSA o = true → isPrimaryLabeled o = true →
            ∃ rb, findObj s .ROLEBINDING (o.name ++ "-role-binding") o.ns = some rb
              ∧ isPrimaryLabeled rb = true) :
    registry_set_primary b (ns ++ ":" ++ name) nsArg s
      = .error (.accountNotFound (ns ++ ":" ++ name)) := by
  cases hp : s.filter (fun o => scopePred b nsArg o && isPrimaryLabeled o) with
  | nil =>
    simp only [registry_set_primary, get_primary_eq, hp,
      registry_get_missing b ns name s h1 h2 habs]
  | cons P rest =>
    have hPmem : P ∈ s.filter (fun o => scopePred b nsArg o && isPrimaryLabeled o) := by
      rw [hp]; exact List.mem_cons_self P rest
    have hPs : P ∈ s := (List.mem_filter.mp hPmem).1
    have hPpred := (List.mem_filter.mp hPmem).2
    rw [Bool.and_eq_true] at hPpred
    obtain ⟨hPkind, hPmg⟩ := scopePred_facts b nsArg P hPpred.1
    have hPprim : isPrimaryLabeled P = true := hPpred.2
    have hPmanaged : isManagedSA P = true := isManagedSA_of P hPkind hPmg
    obtain ⟨rb, hrbfind, hrbprim⟩ := hprb P hPs hPmanaged hPprim
    have hPfind : findObj s .SERVICEACCOUNT P.name P.ns = some P := by
      have hne : P.kind ≠ KubernetesResourceType.NAMESPACE := by
        rw [hPkind]
        decide
      have hf := findObj_of_mem_nodup s P hPs hne hkeys
      rw [hPkind] at hf
      exact hf
    have hremSA := backend_remove_label_ok b .SERVICEACCOUNT (Or.inl rfl)
      P.name PRIMARY_LABELNAME P.ns s P hPfind (by
        simpa [isPrimaryLabeled] using hPprim)
    have hrbkind : rb.kind = .ROLEBINDING :=
      (findObj_mem s .ROLEBINDING (P.name ++ "-role-binding") P.ns rb hrbfind).2.1
    have hrbmatch : matchesObj rb .SERVICEACCOUNT P.name P.ns = false := by
      simp only [matchesObj, hrbkind]
      rfl
    have hrbfind1 : findObj (updateLabels s .SERVICEACCOUNT P.name P.ns
        (fun l => some ((l.getD []).filter (fun kv => kv.1 != PRIMARY_LABELNAME))))
        .ROLEBINDING (P.name ++ "-role-binding") P.ns = some rb := by
      rw [findObj_updateLabels, hrbfind]
      simp only [Option.map_some', hrbmatch, Bool.false_eq_true, if_false]
    have hremRB := backend_remove_label_ok b .ROLEBINDING (Or.inr rfl)
      (P.name ++ "-role-binding") PRIMARY_LABELNAME P.ns _ rb hrbfind1 (by
        simpa [isPrimaryLabeled] using hrbprim)
    have habs2 : findObj (updateLabels (updateLabels s .SERVICEACCOUNT P.name P.ns
          (fun l => some ((l.getD []).filter (fun kv => kv.1 != PRIMARY_LABELNAME))))
          .ROLEBINDING (P.name ++ "-role-binding") P.ns
          (fun l => some ((l.getD []).filter (fun kv => kv.1 != PRIMARY_LABELNAME))))
        .SERVICEACCOUNT name ns = none := by
      rw [findObj_updateLabels, findObj_updateLabels, habs]
      rfl
    simp only [registry_set_primary, get_primary_eq, hp]
    rw [show (accountOf b s P).name = P.name from rfl,
      show (accountOf b s P).namespace' = P.ns from rfl]
    rw [hremSA]
    simp only [hremRB, registry_get_missing b ns name _ h1 h2 habs2]

/-- C7 witness: electing a never-created account while another account is
primary; the previous primary's labels are removed and AccountNotFound is
raised. -/
theorem C7_set_primary_missing_account_witness :
    registry_set_primary .kubectl ("ns" ++ ":" ++ "ghost") none
      [saObj "p" "ns" (some [mgLbl, prLbl]), rbObj "p-role-binding" "ns" (some [prLbl])]
      = .error (.accountNotFound ("ns" ++ ":" ++ "ghost")) :=
  C7_set_primary_missing_account .kubectl "ns" "ghost" none
    [saObj "p" "ns" (some [mgLbl, prLbl]), rbObj "p-role-binding" "ns" (some [prLbl])]
    (by decide) (by decide) (by unfold NodupKeys; decide) (by decide)
    (by
      intro o ho hmg hpr
      rcases List.mem_cons.mp ho with h | h
      · subst h
        exact ⟨rbObj "p-role-binding" "ns" (some [prLbl]), by decide, by decide⟩
      · rcases List.mem_cons.mp h with h2 | h2
        · subst h2
          exact absurd hmg (by decide)
        · exact absurd h2 (List.not_mem_nil o))

/-! ## How the label transforms act on the managed / primary tests -/

/-- Unscoped kubectl listing keeps exactly the managed service accounts. -/
theorem scopePred_kubectl_none (o : K8sObject) :
    scopePred .kubectl none o = isManagedSA o := by
  simp [scopePred, isManagedSA]

/-- The two label names are distinct. -/
theorem managed_ne_primary : MANAGED_BY_LABELNAME ≠ PRIMARY_LABELNAME := by decide

/-- Clearing the primary label keeps the managed-by marker. -/
theorem isManagedSA_clear (o : K8sObject) :
    isManagedSA { o with labels := some ((o.labels.getD []).filter
        (fun kv => kv.1 != PRIMARY_LABELNAME)) } = isManagedSA o := by
  unfold isManagedSA objLabels
  rw [show ({ o with labels := some ((o.labels.getD []).filter
      (fun kv => kv.1 != PRIMARY_LABELNAME)) } : K8sObject).labels
    = some ((o.labels.getD []).filter (fun kv => kv.1 != PRIMARY_LABELNAME)) from rfl]
  rw [Option.getD_some]
  rw [lookup_filter_ne _ _ _ managed_ne_primary]

/-- Clearing the primary label clears it. -/
theorem isPrimaryLabeled_clear (o : K8sObject) :
    isPrimaryLabeled { o with labels := some ((o.labels.getD []).filter
        (fun kv => kv.1 != PRIMARY_LABELNAME)) } = false := by
  unfold isPrimaryLabeled objLabels
  rw [show ({ o with labels := some ((o.labels.getD []).filter
      (fun kv => kv.1 != PRIMARY_LABELNAME)) } : K8sObject).labels
    = some ((o.labels.getD []).filter (fun kv => kv.1 != PRIMARY_LABELNAME)) from rfl]
  rw [Option.getD_some, lookup_filter_self]
  rfl

/-- Setting the primary label keeps the managed-by marker. -/
theorem isManagedSA_set (o : K8sObject) :
    isManagedSA { o with labels := some (setEntry (o.labels.getD [])
        PRIMARY_LABELNAME "True") } = isManagedSA o := by
  unfold isManagedSA objLabels
  rw [show ({ o with labels := some (setEntry (o.labels.getD [])
      PRIMARY_LABELNAME "True") } : K8sObject).labels
    = some (setEntry (o.labels.getD []) PRIMARY_LABELNAME "True") from rfl]
  rw [Option.getD_some, lookup_setEntry_ne _ _ _ _ managed_ne_primary]

/-- Setting the primary label sets it. -/
theorem isPrimaryLabeled_set (o : K8sObject) :
    isPrimaryLabeled { o with labels := some (setEntry (o.labels.getD [])
        PRIMARY_LABELNAME "True") } = true := by
  unfold isPrimaryLabeled objLabels
  rw [show ({ o with labels := some (setEntry (o.labels.getD [])
      PRIMARY_LABELNAME "True") } : K8sObject).labels
    = some (setEntry (o.labels.getD []) PRIMARY_LABELNAME "True") from rfl]
  rw [Option.getD_some, lookup_setEntry_self]
  rfl

/-- Label updates do not move, add or remove objects. -/
theorem map_objKey_updateLabels (s : K8sState) (k : KubernetesResourceType)
    (n m : String) (f : Option (List (String × String)) → Option (List (String × String))) :
    (updateLabels s k n m f).map objKey = s.map objKey := by
  unfold updateLabels
  rw [List.map_map]
  apply List.map_congr_left
  intro o _
  by_cases h : matchesObj o k n m = true
  · rw [Function.comp_apply, if_pos h]
    rfl
  · rw [Function.comp_apply, if_neg h]

/-- A label update leaves objects of another kind untouched at lookup. -/
theorem findObj_updateLabels_other (s : K8sState) (k : KubernetesResourceType)
    (n m : String) (f : Option (List (String × String)) → Option (List (String × String)))
    (k' : KubernetesResourceType) (n' m' : String) (o : K8sObject)
    (hfind : findObj s k' n' m' = some o)
    (hno : matchesObj o k n m = false) :
    findObj (updateLabels s k n m f) k' n' m' = some o := by
  rw [findObj_updateLabels, hfind]
  simp only [Option.map_some', hno, Bool.false_eq_true, if_false]

/-- A managed object carries a labels field. -/
theorem labels_some_of_managed (o : K8sObject) (h : isManagedSA o = true) :
    ∃ ls, o.labels = some ls := by
  cases hls : o.labels with
  | some ls => exact ⟨ls, rfl⟩
  | none =>
    exfalso
    unfold isManagedSA objLabels at h
    rw [hls] at h
    simp at h

/-- Components of a positive namespace-scoped match. -/
theorem matchesObj_facts (o : K8sObject) (k : KubernetesResourceType) (n m : String)
    (hk : k ≠ .NAMESPACE) (h : matchesObj o k n m = true) :
    o.kind = k ∧ o.name = n ∧ o.ns = m := by
  simp only [matchesObj, Bool.and_eq_true, Bool.or_eq_true, beq_iff_eq] at h
  rcases h with ⟨⟨hh1, hh2⟩, hh3 | hh3⟩
  · exact absurd hh3 hk
  · exact ⟨hh1, hh2, hh3⟩

/-- Building a positive match from its components. -/
theorem matchesObj_of_facts (o : K8sObject) (k : KubernetesResourceType)
    (n m : String) (hh1 : o.kind = k) (hh2 : o.name = n) (hh3 : o.ns = m) :
    matchesObj o k n m = true := by
  simp [matchesObj, hh1, hh2, hh3]

/-- Kind mismatch refutes a match. -/
theorem matchesObj_false_of_kind (o : K8sObject) (k : KubernetesResourceType)
    (n m : String) (h : o.kind ≠ k) : matchesObj o k n m = false := by
  have hb : (o.kind == k) = false := beq_eq_false_iff_ne.mpr h
  simp [matchesObj, hb]

/-! ## Characterizing the two labeling steps of `set_primary` -/

/-- After `set_primary`'s two `set_label` steps on a cluster without any
managed primary, the target is the unique managed primary, its role binding
carries the primary label, and everything else is only relabeled in place. -/
theorem set_tail_chars (s2 s' : K8sState) (ns a : String)
    (hs' : s' = updateLabels (updateLabels s2 .SERVICEACCOUNT a ns
        (fun l => some (setEntry (l.getD []) PRIMARY_LABELNAME "True")))
        .ROLEBINDING (a ++ "-role-binding") ns
        (fun l => some (setEntry (l.getD []) PRIMARY_LABELNAME "True")))
    (hnone : ∀ o ∈ s2, isManagedSA o = true → isPrimaryLabeled o = false) :
    (s'.map objKey = s2.map objKey)
    ∧ (∀ o' ∈ s', isManagedSA o' = true → isPrimaryLabeled o' = true →
        objKey o' = (.SERVICEACCOUNT, a, ns))
    ∧ (∀ n m o₀, findObj s2 .SERVICEACCOUNT n m = some o₀ → isManagedSA o₀ = true →
        ∃ o', findObj s' .SERVICEACCOUNT n m = some o' ∧ isManagedSA o' = true
          ∧ (isPrimaryLabeled o' = true → n = a ∧ m = ns))
    ∧ (∀ n m r, findObj s2 .ROLEBINDING n m = some r →
        ∃ r', findObj s' .ROLEBINDING n m = some r')
    ∧ (∀ oA2, findObj s2 .SERVICEACCOUNT a ns = some oA2 → isManagedSA oA2 = true →
        ∃ oA', findObj s' .SERVICEACCOUNT a ns = some oA' ∧ isManagedSA oA' = true
          ∧ isPrimaryLabeled oA' = true)
    ∧ (∀ rb2, findObj s2 .ROLEBINDING (a ++ "-role-binding") ns = some rb2 →
        ∃ rb', findObj s' .ROLEBINDING (a ++ "-role-binding") ns = some rb'
          ∧ isPrimaryLabeled rb' = true) := by
  have hSAneNS : KubernetesResourceType.SERVICEACCOUNT ≠ .NAMESPACE := by decide
  have hRBneNS : KubernetesResourceType.ROLEBINDING ≠ .NAMESPACE := by decide
  refine ⟨?_, ?_, ?_, ?_, ?_, ?_⟩
  · rw [hs', map_objKey_updateLabels, map_objKey_updateLabels]
  · intro o' ho' hmg hpr
    rw [hs'] at ho'
    simp only [updateLabels, List.map_map] at ho'
    obtain ⟨o₀, ho₀, heq⟩ := List.mem_map.mp ho'
    simp only [Function.comp_apply] at heq
    by_cases hm1 : matchesObj o₀ .SERVICEACCOUNT a ns = true
    · obtain ⟨hk0, hn0, hns0⟩ := matchesObj_facts o₀ _ a ns hSAneNS hm1
      rw [if_pos hm1] at heq
      have hm2 : matchesObj { o₀ with labels := some (setEntry (o₀.labels.getD [])
          PRIMARY_LABELNAME "True") } .ROLEBINDING (a ++ "-role-binding") ns = false := by
        rw [matchesObj_relabel]
        exact matchesObj_false_of_kind o₀ _ _ _ (by rw [hk0]; decide)
      rw [if_neg (by rw [hm2]; exact Bool.false_ne_true)] at heq
      rw [← heq]
      simp [objKey, hk0, hn0, hns0]
    · rw [if_neg hm1] at heq
      by_cases hm2 : matchesObj o₀ .ROLEBINDING (a ++ "-role-binding") ns = true
      · obtain ⟨hk0, _, _⟩ := matchesObj_facts o₀ _ _ ns hRBneNS hm2
        rw [if_pos hm2] at heq
        rw [← heq] at hmg
        exfalso
        have : isManagedSA { o₀ with labels := some (setEntry (o₀.labels.getD [])
            PRIMARY_LABELNAME "True") } = false := by
          simp [isManagedSA, hk0]
        rw [this] at hmg
        exact Bool.noConfusion hmg
      · rw [if_neg hm2] at heq
        rw [← heq] at hmg hpr
        have := hnone o₀ ho₀ hmg
        rw [this] at hpr
        exact absurd hpr Bool.false_ne_true
  · intro n m o₀ hfind₀ hmg₀
    have hfacts := findObj_mem s2 .SERVICEACCOUNT n m o₀ hfind₀
    have hk0 : o₀.kind = .SERVICEACCOUNT := hfacts.2.1
    have hn0 : o₀.name = n := hfacts.2.2.1
    have hns0 : o₀.ns = m := by
      rcases hfacts.2.2.2 with hc | hc
      · exact absurd hc hSAneNS
      · exact hc
    rw [hs', findObj_updateLabels, findObj_updateLabels, hfind₀]
    simp only [Option.map_some']
    by_cases hm1 : matchesObj o₀ .SERVICEACCOUNT a ns = true
    · obtain ⟨_, hna, hnsa⟩ := matchesObj_facts o₀ _ a ns hSAneNS hm1
      rw [if_pos hm1]
      have hm2 : matchesObj { o₀ with labels := some (setEntry (o₀.labels.getD [])
          PRIMARY_LABELNAME "True") } .ROLEBINDING (a ++ "-role-binding") ns = false := by
        rw [matchesObj_relabel]
        exact matchesObj_false_of_kind o₀ _ _ _ (by rw [hk0]; decide)
      rw [if_neg (by rw [hm2]; exact Bool.false_ne_true)]
      refine ⟨_, rfl, ?_, ?_⟩
      · rw [isManagedSA_set]
        exact hmg₀
      · intro _
        exact ⟨by rw [← hn0, hna], by rw [← hns0, hnsa]⟩
    · rw [if_neg hm1]
      have hm2 : matchesObj o₀ .ROLEBINDING (a ++ "-role-binding") ns = false :=
        matchesObj_false_of_kind o₀ _ _ _ (by rw [hk0]; decide)
      rw [if_neg (by rw [hm2]; exact Bool.false_ne_true)]
      refine ⟨o₀, rfl, hmg₀, ?_⟩
      intro hpr
      have := hnone o₀ hfacts.1 hmg₀
      rw [this] at hpr
      exact absurd hpr Bool.false_ne_true
  · intro n m r hf
    rw [hs', findObj_updateLabels, findObj_updateLabels, hf]
    simp only [Option.map_some']
    exact ⟨_, rfl⟩
  · intro oA2 hfA hmgA
    have hfacts := findObj_mem s2 .SERVICEACCOUNT a ns oA2 hfA
    have hk0 : oA2.kind = .SERVICEACCOUNT := hfacts.2.1
    have hn0 : oA2.name = a := hfacts.2.2.1
    have hns0 : oA2.ns = ns := by
      rcases hfacts.2.2.2 with hc | hc
      · exact absurd hc hSAneNS
      · exact hc
    have hm1 : matchesObj oA2 .SERVICEACCOUNT a ns = true :=
      matchesObj_of_facts oA2 _ a ns hk0 hn0 hns0
    rw [hs', findObj_updateLabels, findObj_updateLabels, hfA]
    simp only [Option.map_some']
    rw [if_pos hm1]
    have hm2 : matchesObj { oA2 with labels := some (setEntry (oA2.labels.getD [])
        PRIMARY_LABELNAME "True") } .ROLEBINDING (a ++ "-role-binding") ns = false := by
      rw [matchesObj_relabel]
      exact matchesObj_false_of_kind oA2 _ _ _ (by rw [hk0]; decide)
    rw [if_neg (by rw [hm2]; exact Bool.false_ne_true)]
    refine ⟨_, rfl, ?_, ?_⟩
    · rw [isManagedSA_set]
      exact hmgA
    · exact isPrimaryLabeled_set oA2
  · intro rb2 hfrb
    have hfacts := findObj_mem s2 .ROLEBINDING (a ++ "-role-binding") ns rb2 hfrb
    have hk0 : rb2.kind = .ROLEBINDING := hfacts.2.1
    have hn0 : rb2.name = a ++ "-role-binding" := hfacts.2.2.1
    have hns0 : rb2.ns = ns := by
      rcases hfacts.2.2.2 with hc | hc
      · exact absurd hc hRBneNS
      · exact hc
    have hm1 : matchesObj rb2 .SERVICEACCOUNT a ns = false :=
      matchesObj_false_of_kind rb2 _ _ _ (by rw [hk0]; decide)
    have hm2 : matchesObj rb2 .ROLEBINDING (a ++ "-role-binding") ns = true :=
      matchesObj_of_facts rb2 _ _ ns hk0 hn0 hns0
    rw [hs', findObj_updateLabels, findObj_updateLabels, hfrb]
    simp only [Option.map_some']
    have hnot1 : ¬(matchesObj rb2 .SERVICEACCOUNT a ns = true) := by
      rw [hm1]; exact Bool.false_ne_true
    rw [if_neg hnot1, if_pos hm2]
    exact ⟨_, rfl, isPrimaryLabeled_set rb2⟩

/-- After `set_primary`'s two `remove_label` steps aimed at the previous
primary `P`, no managed primary remains (all managed primaries shared `P`'s
key), and every identity and role binding is still found at its reference,
only relabeled in place. -/
theorem clear_half_chars (s sMid : K8sState) (P : K8sObject)
    (hsMid : sMid = updateLabels (updateLabels s .SERVICEACCOUNT P.name P.ns
        (fun l => some ((l.getD []).filter (fun kv => kv.1 != PRIMARY_LABELNAME))))
        .ROLEBINDING (P.name ++ "-role-binding") P.ns
        (fun l => some ((l.getD []).filter (fun kv => kv.1 != PRIMARY_LABELNAME))))
    (hPkind : P.kind = .SERVICEACCOUNT)
    (huniqP : ∀ o ∈ s, isManagedSA o = true → isPrimaryLabeled o = true →
        objKey o = objKey P) :
    (sMid.map objKey = s.map objKey)
    ∧ (∀ o2 ∈ sMid, isManagedSA o2 = true → isPrimaryLabeled o2 = false)
    ∧ (∀ n m o₀, findObj s .SERVICEACCOUNT n m = some o₀ →
        ∃ o2, findObj sMid .SERVICEACCOUNT n m = some o2
          ∧ isManagedSA o2 = isManagedSA o₀ ∧ o2.name = o₀.name ∧ o2.ns = o₀.ns)
    ∧ (∀ n m r, findObj s .ROLEBINDING n m = some r →
        ∃ r2, findObj sMid .ROLEBINDING n m = some r2) := by
  have hSAneNS : KubernetesResourceType.SERVICEACCOUNT ≠ .NAMESPACE := by decide
  refine ⟨?_, ?_, ?_, ?_⟩
  · rw [hsMid, map_objKey_updateLabels, map_objKey_updateLabels]
  · intro o2 ho2 hmg
    cases hb : isPrimaryLabeled o2 with
    | false => rfl
    | true =>
    exfalso
    rw [hsMid] at ho2
    simp only [updateLabels, List.map_map] at ho2
    obtain ⟨o₀, ho₀, heq⟩ := List.mem_map.mp ho2
    simp only [Function.comp_apply] at heq
    by_cases hm1 : matchesObj o₀ .SERVICEACCOUNT P.name P.ns = true
    · obtain ⟨hk0, _, _⟩ := matchesObj_facts o₀ _ _ _ hSAneNS hm1
      rw [if_pos hm1] at heq
      have hm2 : matchesObj { o₀ with labels := some ((o₀.labels.getD []).filter
          (fun kv => kv.1 != PRIMARY_LABELNAME)) } .ROLEBINDING
          (P.name ++ "-role-binding") P.ns = false := by
        rw [matchesObj_relabel]
        exact matchesObj_false_of_kind o₀ _ _ _ (by rw [hk0]; decide)
      rw [if_neg (by rw [hm2]; exact Bool.false_ne_true)] at heq
      rw [← heq] at hb
      rw [isPrimaryLabeled_clear] at hb
      exact Bool.noConfusion hb
    · rw [if_neg hm1] at heq
      by_cases hm2 : matchesObj o₀ .ROLEBINDING (P.name ++ "-role-binding") P.ns = true
      · obtain ⟨hk0, _, _⟩ := matchesObj_facts o₀ _ _ _ (by decide) hm2
        rw [if_pos hm2] at heq
        rw [← heq] at hmg
        have : isManagedSA { o₀ with labels := some ((o₀.labels.getD []).filter
            (fun kv => kv.1 != PRIMARY_LABELNAME)) } = false := by
          simp [isManagedSA, hk0]
        rw [this] at hmg
        exact Bool.noConfusion hmg
      · rw [if_neg hm2] at heq
        rw [← heq] at hmg hb
        have hkeyeq := huniqP o₀ ho₀ hmg hb
        simp only [objKey, Prod.mk.injEq] at hkeyeq
        obtain ⟨hek, hen, hens⟩ := hkeyeq
        have hk0 : o₀.kind = .SERVICEACCOUNT := by rw [hek, hPkind]
        have hkb : (o₀.kind == KubernetesResourceType.NAMESPACE) = false := by
          rw [hk0]; rfl
        have hkb2 : (P.kind == KubernetesResourceType.NAMESPACE) = false := by
          rw [hPkind]; rfl
        rw [hkb, hkb2] at hens
        simp only [Bool.false_eq_true, if_false] at hens
        exact absurd (matchesObj_of_facts o₀ _ _ _ hk0 hen hens) hm1
  · intro n m o₀ hfind₀
    have hfacts := findObj_mem s .SERVICEACCOUNT n m o₀ hfind₀
    have hk0 : o₀.kind = .SERVICEACCOUNT := hfacts.2.1
    rw [hsMid, findObj_updateLabels, findObj_updateLabels, hfind₀]
    simp only [Option.map_some']
    by_cases hm1 : matchesObj o₀ .SERVICEACCOUNT P.name P.ns = true
    · rw [if_pos hm1]
      have hm2 : matchesObj { o₀ with labels := some ((o₀.labels.getD []).filter
          (fun kv => kv.1 != PRIMARY_LABELNAME)) } .ROLEBINDING
          (P.name ++ "-role-binding") P.ns = false := by
        rw [matchesObj_relabel]
        exact matchesObj_false_of_kind o₀ _ _ _ (by rw [hk0]; decide)
      rw [if_neg (by rw [hm2]; exact Bool.false_ne_true)]
      exact ⟨_, rfl, isManagedSA_clear o₀, rfl, rfl⟩
    · have hnot1 : ¬(matchesObj o₀ .SERVICEACCOUNT P.name P.ns = true) := hm1
      have hm2 : matchesObj o₀ .ROLEBINDING (P.name ++ "-role-binding") P.ns = false :=
        matchesObj_false_of_kind o₀ _ _ _ (by rw [hk0]; decide)
      rw [if_neg hnot1]
      rw [if_neg (by rw [hm2]; exact Bool.false_ne_true)]
      exact ⟨o₀, rfl, rfl, rfl, rfl⟩
  · intro n m r hf
    rw [hsMid, findObj_updateLabels, findObj_updateLabels, hf]
    simp only [Option.map_some']
    exact ⟨_, rfl⟩

/-- `get` on a present identity with labels returns its hydration. -/
theorem registry_get_found (b : Backend) (ns name : String) (s : K8sState)
    (o : K8sObject) (ls : List (String × String))
    (h1 : ':' ∉ ns.data) (h2 : ':' ∉ name.data)
    (hfind : findObj s .SERVICEACCOUNT name ns = some o) (hls : o.labels = some ls) :
    registry_get b (ns ++ ":" ++ name) s = .ok (some (accountOf b s o)) := by
  have hback : backend_get_service_account b name ns s = .ok o := by
    cases b with
    | kubectl =>
      simp only [backend_get_service_account, kubectl_get_service_account, hfind]
    | lightkube =>
      simp only [backend_get_service_account, lightkube_get_service_account,
        resolveNs, Option.getD_some, hfind]
  have hobj : objLabels o = ls := by simp [objLabels, hls]
  simp only [registry_get, split2_pair ns name h1 h2, hback,
    _build_service_account_from_raw, hls, accountOf, hobj]

/-- The hydrated account carries the object's name. -/
theorem accountOf_name (b : Backend) (s : K8sState) (o : K8sObject) :
    (accountOf b s o).name = o.name := rfl

/-- The hydrated account carries the object's namespace. -/
theorem accountOf_ns (b : Backend) (s : K8sState) (o : K8sObject) :
    (accountOf b s o).namespace' = o.ns := rfl

/-- A managed service account has the service-account kind. -/
theorem isManagedSA_kind (o : K8sObject) (h : isManagedSA o = true) :
    o.kind = .SERVICEACCOUNT := by
  simp only [isManagedSA, Bool.and_eq_true, beq_iff_eq] at h
  exact h.1

/-- One successful `set_primary` call through the command backend: the
target becomes the unique managed primary, everything else keeps its key,
managed accounts stay managed, and only the target may be primary
afterwards. -/
theorem set_primary_kubectl_step (s : K8sState) (ns a : String)
    (h1 : ':' ∉ ns.data) (h2 : ':' ∉ a.data)
    (hkeys : NodupKeys s)
    (hA : ∃ oA, findObj s .SERVICEACCOUNT a ns = some oA ∧ isManagedSA oA = true)
    (hArb : ∃ r, findObj s .ROLEBINDING (a ++ "-role-binding") ns = some r)
    (huniq : ∀ o ∈ s, isManagedSA o = true → isPrimaryLabeled o = true →
             ∀ o' ∈ s, isManagedSA o' = true → isPrimaryLabeled o' = true →
             objKey o = objKey o')
    (hprb : ∀ o ∈ s, isManagedSA o = true → isPrimaryLabeled o = true →
            ∃ rb, findObj s .ROLEBINDING (o.name ++ "-role-binding") o.ns = some rb
              ∧ isPrimaryLabeled rb = true) :
    ∃ s', registry_set_primary .kubectl (ns ++ ":" ++ a) none s = .ok (ns ++ ":" ++ a, s')
      ∧ (s'.map objKey = s.map objKey)
      ∧ (∀ o' ∈ s', isManagedSA o' = true → isPrimaryLabeled o' = true →
          objKey o' = (.SERVICEACCOUNT, a, ns))
      ∧ (∀ n m o₀, findObj s .SERVICEACCOUNT n m = some o₀ → isManagedSA o₀ = true →
          ∃ o', findObj s' .SERVICEACCOUNT n m = some o' ∧ isManagedSA o' = true
            ∧ (isPrimaryLabeled o' = true → n = a ∧ m = ns))
      ∧ (∀ n m r, findObj s .ROLEBINDING n m = some r →
          ∃ r', findObj s' .ROLEBINDING n m = some r')
      ∧ (∃ oA', findObj s' .SERVICEACCOUNT a ns = some oA' ∧ isManagedSA oA' = true
          ∧ isPrimaryLabeled oA' = true)
      ∧ (∃ rb', findObj s' .ROLEBINDING (a ++ "-role-binding") ns = some rb'
          ∧ isPrimaryLabeled rb' = true) := by
  obtain ⟨oA, hfA, hmgA⟩ := hA
  obtain ⟨rbA, hfArb⟩ := hArb
  have hSAneNS : KubernetesResourceType.SERVICEACCOUNT ≠ .NAMESPACE := by decide
  have hAfacts := findObj_mem s .SERVICEACCOUNT a ns oA hfA
  have hAname : oA.name = a := hAfacts.2.2.1
  have hAns : oA.ns = ns := by
    rcases hAfacts.2.2.2 with hc | hc
    · exact absurd hc hSAneNS
    · exact hc
  have hrbAkind : rbA.kind = .ROLEBINDING :=
    (findObj_mem s .ROLEBINDING (a ++ "-role-binding") ns rbA hfArb).2.1
  have hfeq : s.filter (fun o => scopePred .kubectl none o && isPrimaryLabeled o)
      = s.filter (fun o => isManagedSA o && isPrimaryLabeled o) := by
    apply List.filter_congr
    intro o _
    rw [scopePred_kubectl_none]
  cases hp : s.filter (fun o => isManagedSA o && isPrimaryLabeled o) with
  | nil =>
    have hnone : ∀ o ∈ s, isManagedSA o = true → isPrimaryLabeled o = false := by
      intro o ho hmg
      cases hb : isPrimaryLabeled o with
      | false => rfl
      | true =>
        exfalso
        have hmemf : o ∈ s.filter (fun o => isManagedSA o && isPrimaryLabeled o) :=
          List.mem_filter.mpr ⟨ho, by rw [hmg, hb]; rfl⟩
        rw [hp] at hmemf
        exact absurd hmemf (List.not_mem_nil o)
    obtain ⟨hckeys, hponly, hprev, hcrb, hcA, hcArb⟩ :=
      set_tail_chars s _ ns a rfl hnone
    obtain ⟨lsA, hlsA⟩ := labels_some_of_managed oA hmgA
    have hset1 := backend_set_label_primary_ok .kubectl .SERVICEACCOUNT (Or.inl rfl)
      a ns s oA hfA
    have hfArb3 : findObj (updateLabels s .SERVICEACCOUNT a ns
        (fun l => some (setEntry (l.getD []) PRIMARY_LABELNAME "True")))
        .ROLEBINDING (a ++ "-role-binding") ns = some rbA :=
      findObj_updateLabels_other _ _ _ _ _ _ _ _ rbA hfArb
        (matchesObj_false_of_kind rbA _ _ _ (by rw [hrbAkind]; decide))
    have hset2 := backend_set_label_primary_ok .kubectl .ROLEBINDING (Or.inr rfl)
      (a ++ "-role-binding") ns _ rbA hfArb3
    refine ⟨_, ?_, hckeys, hponly, hprev, hcrb, hcA oA hfA hmgA, hcArb rbA hfArb⟩
    simp only [registry_set_primary, get_primary_eq, hfeq, hp]
    rw [registry_get_found .kubectl ns a s oA lsA h1 h2 hfA hlsA]
    simp only [accountOf_name, accountOf_ns, hAname, hAns]
    rw [hset1]
    simp only [hset2]
  | cons P rest =>
    have hPmem' : P ∈ s.filter (fun o => isManagedSA o && isPrimaryLabeled o) := by
      rw [hp]
      exact List.mem_cons_self P rest
    obtain ⟨hPs, hPpredB⟩ := List.mem_filter.mp hPmem'
    rw [Bool.and_eq_true] at hPpredB
    obtain ⟨hPmg, hPprim⟩ := hPpredB
    have hPkind : P.kind = .SERVICEACCOUNT := isManagedSA_kind P hPmg
    have huniqP : ∀ o ∈ s, isManagedSA o = true → isPrimaryLabeled o = true →
        objKey o = objKey P :=
      fun o ho hm hpr => huniq o ho hm hpr P hPs hPmg hPprim
    obtain ⟨rbP, hfrbP, hprimrbP⟩ := hprb P hPs hPmg hPprim
    have hrbPkind : rbP.kind = .ROLEBINDING :=
      (findObj_mem s .ROLEBINDING (P.name ++ "-role-binding") P.ns rbP hfrbP).2.1
    have hPfind : findObj s .SERVICEACCOUNT P.name P.ns = some P := by
      have hne : P.kind ≠ KubernetesResourceType.NAMESPACE := by
        rw [hPkind]
        decide
      have hf := findObj_of_mem_nodup s P hPs hne hkeys
      rw [hPkind] at hf
      exact hf
    have hremSA := backend_remove_label_ok .kubectl .SERVICEACCOUNT (Or.inl rfl)
      P.name PRIMARY_LABELNAME P.ns s P hPfind (by
        simpa [isPrimaryLabeled] using hPprim)
    have hfrbP1 : findObj (updateLabels s .SERVICEACCOUNT P.name P.ns
        (fun l => some ((l.getD []).filter (fun kv => kv.1 != PRIMARY_LABELNAME))))
        .ROLEBINDING (P.name ++ "-role-binding") P.ns = some rbP :=
      findObj_updateLabels_other _ _ _ _ _ _ _ _ rbP hfrbP
        (matchesObj_false_of_kind rbP _ _ _ (by rw [hrbPkind]; decide))
    have hremRB := backend_remove_label_ok .kubectl .ROLEBINDING (Or.inr rfl)
      (P.name ++ "-role-binding") PRIMARY_LABELNAME P.ns _ rbP hfrbP1 (by
        simpa [isPrimaryLabeled] using hprimrbP)
    obtain ⟨hkeysMid, hnoneMid, hfindSAMid, hfindRBMid⟩ :=
      clear_half_chars s _ P rfl hPkind huniqP
    obtain ⟨oA2, hfA2, hmgA2eq, hnameA2, hnsA2⟩ := hfindSAMid a ns oA hfA
    have hmgA2 : isManagedSA oA2 = true := by rw [hmgA2eq, hmgA]
    obtain ⟨rbA2, hfArb2⟩ := hfindRBMid (a ++ "-role-binding") ns rbA hfArb
    have hrbA2kind : rbA2.kind = .ROLEBINDING := by
      have hfacts := findObj_mem _ .ROLEBINDING (a ++ "-role-binding") ns rbA2 hfArb2
      exact hfacts.2.1
    obtain ⟨hckeys, hponly, hprev, hcrb, hcA, hcArb⟩ :=
      set_tail_chars _ _ ns a rfl hnoneMid
    obtain ⟨lsA2, hlsA2⟩ := labels_some_of_managed oA2 hmgA2
    have hset1 := backend_set_label_primary_ok .kubectl .SERVICEACCOUNT (Or.inl rfl)
      a ns _ oA2 hfA2
    have hfArb3 : findObj (updateLabels (updateLabels (updateLabels s
        .SERVICEACCOUNT P.name P.ns
        (fun l => some ((l.getD []).filter (fun kv => kv.1 != PRIMARY_LABELNAME))))
        .ROLEBINDING (P.name ++ "-role-binding") P.ns
        (fun l => some ((l.getD []).filter (fun kv => kv.1 != PRIMARY_LABELNAME))))
        .SERVICEACCOUNT a ns
        (fun l => some (setEntry (l.getD []) PRIMARY_LABELNAME "True")))
        .ROLEBINDING (a ++ "-role-binding") ns = some rbA2 :=
      findObj_updateLabels_other _ _ _ _ _ _ _ _ rbA2 hfArb2
        (matchesObj_false_of_kind rbA2 _ _ _ (by rw [hrbA2kind]; decide))
    have hset2 := backend_set_label_primary_ok .kubectl .ROLEBINDING (Or.inr rfl)
      (a ++ "-role-binding") ns _ rbA2 hfArb3
    refine ⟨_, ?_, ?_, hponly, ?_, ?_, hcA oA2 hfA2 hmgA2, hcArb rbA2 hfArb2⟩
    · simp only [registry_set_primary, get_primary_eq, hfeq, hp]
      simp only [accountOf_name, accountOf_ns]
      rw [hremSA]
      simp only [hremRB]
      rw [registry_get_found .kubectl ns a _ oA2 lsA2 h1 h2 hfA2 hlsA2]
      simp only [accountOf_name, accountOf_ns, hnameA2, hAname, hnsA2, hAns]
      rw [hset1]
      simp only [hset2]
    · rw [hckeys, hkeysMid]
    · intro n m o₀ hf₀ hmg₀
      obtain ⟨o2, hf2, hmg2eq, _, _⟩ := hfindSAMid n m o₀ hf₀
      have hmg2 : isManagedSA o2 = true := by rw [hmg2eq, hmg₀]
      exact hprev n m o2 hf2 hmg2
    · intro n m r hf₀
      obtain ⟨r2, hf2⟩ := hfindRBMid n m r hf₀
      exact hcrb n m r2 hf2

/-! ## C1: primary exclusivity -/

/-- Components of the key of a namespace-scoped object. -/
theorem objKey_components (o : K8sObject) (k : KubernetesResourceType)
    (n m : String) (hk : k ≠ .NAMESPACE) (h : objKey o = (k, n, m)) :
    o.kind = k ∧ o.name = n ∧ o.ns = m := by
  simp only [objKey, Prod.mk.injEq] at h
  obtain ⟨hh1, hh2, hh3⟩ := h
  subst hh1
  have hb : (o.kind == KubernetesResourceType.NAMESPACE) = false :=
    beq_eq_false_iff_ne.mpr hk
  rw [hb] at hh3
  simp only [Bool.false_eq_true, if_false] at hh3
  exact ⟨rfl, hh2, hh3⟩

/-- Namespace-scoped kubectl listing keeps the managed accounts of that
namespace. -/
theorem scopePred_kubectl_some (o : K8sObject) (n : String) :
    scopePred .kubectl (some n) o = (isManagedSA o && (o.ns == n)) := by
  cases hh1 : (o.kind == KubernetesResourceType.SERVICEACCOUNT) with
  | false => simp [scopePred, isManagedSA, hh1]
  | true =>
    cases hh2 : (o.ns == n) with
    | false => simp [scopePred, isManagedSA, hh1, hh2]
    | true => simp [scopePred, isManagedSA, hh1, hh2]

/-- C1 counterexample: with primaries present in another namespace,
`set_primary(ns:a)` then `set_primary(ns:b)` (both succeeding) leaves both
`a` and `b` carrying the primary label, and `get_primary("ns")` elects `a`,
not `b` — refuting the claim as stated. -/
theorem C1_counterexample : c1CexRun = some (true, true, some "a") := by rfl

/-- C1 amended: under the preconditions the counterexample shows necessary —
the command backend, a well-formed cluster (unique keys), `a` and `b`
existing as managed accounts of the namespace with their role bindings, at
most one managed primary across the whole cluster (the scope `set_primary`
consults), and the primary's role binding mirroring its label — after
`set_primary(ns:a)` then `set_primary(ns:b)`, `b` is the unique managed
primary in the cluster (hence at most one per namespace), `a` is not
primary, and `get_primary(ns)` returns `b`. -/
theorem C1_primary_exclusivity_amended (s : K8sState) (ns a b : String)
    (h1 : ':' ∉ ns.data) (h2 : ':' ∉ a.data) (h3 : ':' ∉ b.data)
    (hab : a ≠ b)
    (hkeys : NodupKeys s)
    (hA : ∃ oA, findObj s .SERVICEACCOUNT a ns = some oA ∧ isManagedSA oA = true)
    (hB : ∃ oB, findObj s .SERVICEACCOUNT b ns = some oB ∧ isManagedSA oB = true)
    (hArb : ∃ r, findObj s .ROLEBINDING (a ++ "-role-binding") ns = some r)
    (hBrb : ∃ r, findObj s .ROLEBINDING (b ++ "-role-binding") ns = some r)
    (huniq : ∀ o ∈ s, isManagedSA o = true → isPrimaryLabeled o = true →
             ∀ o' ∈ s, isManagedSA o' = true → isPrimaryLabeled o' = true →
             objKey o = objKey o')
    (hprb : ∀ o ∈ s, isManagedSA o = true → isPrimaryLabeled o = true →
            ∃ rb, findObj s .ROLEBINDING (o.name ++ "-role-binding") o.ns = some rb
              ∧ isPrimaryLabeled rb = true) :
    ∃ s1 s2,
      registry_set_primary .kubectl (ns ++ ":" ++ a) none s = .ok (ns ++ ":" ++ a, s1)
      ∧ registry_set_primary .kubectl (ns ++ ":" ++ b) none s1 = .ok (ns ++ ":" ++ b, s2)
      ∧ (∃ oB', findObj s2 .SERVICEACCOUNT b ns = some oB'
          ∧ isManagedSA oB' = true ∧ isPrimaryLabeled oB' = true)
      ∧ (∀ oA', findObj s2 .SERVICEACCOUNT a ns = some oA' →
          isPrimaryLabeled oA' = false)
      ∧ (∀ o ∈ s2, isManagedSA o = true → isPrimaryLabeled o = true →
          objKey o = (.SERVICEACCOUNT, b, ns))
      ∧ (∃ acc, registry_get_primary .kubectl (some ns) s2 = .ok (some acc)
          ∧ acc.name = b ∧ acc.namespace' = ns ∧ acc.primary = true) := by
  have hSAneNS : KubernetesResourceType.SERVICEACCOUNT ≠ .NAMESPACE := by decide
  obtain ⟨s1, hrun1, hkeys1, hponly1, hprev1, hrb1, hcA1, hcArb1⟩ :=
    set_primary_kubectl_step s ns a h1 h2 hkeys hA hArb huniq hprb
  obtain ⟨oB, hfB, hmgB⟩ := hB
  obtain ⟨rbB, hfBrb⟩ := hBrb
  have hkeys1' : NodupKeys s1 := by
    unfold NodupKeys
    rw [hkeys1]
    exact hkeys
  obtain ⟨oB1, hfB1, hmgB1, _⟩ := hprev1 b ns oB hfB hmgB
  obtain ⟨rbB1, hfBrb1⟩ := hrb1 (b ++ "-role-binding") ns rbB hfBrb
  have huniq1 : ∀ o ∈ s1, isManagedSA o = true → isPrimaryLabeled o = true →
      ∀ o' ∈ s1, isManagedSA o' = true → isPrimaryLabeled o' = true →
      objKey o = objKey o' := by
    intro o ho hm hpr o' ho' hm' hpr'
    rw [hponly1 o ho hm hpr, hponly1 o' ho' hm' hpr']
  have hprb1 : ∀ o ∈ s1, isManagedSA o = true → isPrimaryLabeled o = true →
      ∃ rb, findObj s1 .ROLEBINDING (o.name ++ "-role-binding") o.ns = some rb
        ∧ isPrimaryLabeled rb = true := by
    intro o ho hm hpr
    obtain ⟨_, hon, hons⟩ :=
      objKey_components o _ a ns hSAneNS (hponly1 o ho hm hpr)
    rw [hon, hons]
    exact hcArb1
  obtain ⟨s2, hrun2, hkeys2, hponly2, hprev2, hrb2, hcB2, hcBrb2⟩ :=
    set_primary_kubectl_step s1 ns b h1 h3 hkeys1'
      ⟨oB1, hfB1, hmgB1⟩ ⟨rbB1, hfBrb1⟩ huniq1 hprb1
  refine ⟨s1, s2, hrun1, hrun2, hcB2, ?_, hponly2, ?_⟩
  · -- a is no longer primary
    obtain ⟨oA, hfA, hmgA⟩ := hA
    obtain ⟨oA1, hfA1, hmgA1, _⟩ := hprev1 a ns oA hfA hmgA
    obtain ⟨oA2, hfA2, _, himpA2⟩ := hprev2 a ns oA1 hfA1 hmgA1
    intro oA' hf'
    have heq : oA2 = oA' := by
      rw [hfA2] at hf'
      injection hf'
    subst heq
    cases hbp : isPrimaryLabeled oA2 with
    | false => rfl
    | true => exact absurd (himpA2 hbp).1 hab
  · -- get_primary(ns) elects b
    obtain ⟨oB', hfB', hmgB', hprB'⟩ := hcB2
    have hBfacts := findObj_mem s2 .SERVICEACCOUNT b ns oB' hfB'
    have hBpred : (scopePred .kubectl (some ns) oB' && isPrimaryLabeled oB') = true := by
      rw [scopePred_kubectl_some]
      have hns' : (oB'.ns == ns) = true := by
        rcases hBfacts.2.2.2 with hc | hc
        · exact absurd hc hSAneNS
        · exact beq_iff_eq.mpr hc
      rw [hmgB', hns', hprB']
      rfl
    have hmemf : oB' ∈ s2.filter
        (fun o => scopePred .kubectl (some ns) o && isPrimaryLabeled o) :=
      List.mem_filter.mpr ⟨hBfacts.1, hBpred⟩
    cases hfp : s2.filter
        (fun o => scopePred .kubectl (some ns) o && isPrimaryLabeled o) with
    | nil =>
      rw [hfp] at hmemf
      exact absurd hmemf (List.not_mem_nil oB')
    | cons o₀ rest₂ =>
      have ho₀mem : o₀ ∈ s2.filter
          (fun o => scopePred .kubectl (some ns) o && isPrimaryLabeled o) := by
        rw [hfp]
        exact List.mem_cons_self o₀ rest₂
      obtain ⟨ho₀s, ho₀pred⟩ := List.mem_filter.mp ho₀mem
      rw [Bool.and_eq_true] at ho₀pred
      obtain ⟨ho₀scope, ho₀prim⟩ := ho₀pred
      obtain ⟨ho₀kind, ho₀mg⟩ := scopePred_facts .kubectl (some ns) o₀ ho₀scope
      have ho₀managed : isManagedSA o₀ = true := isManagedSA_of o₀ ho₀kind ho₀mg
      obtain ⟨_, ho₀name, ho₀ns⟩ :=
        objKey_components o₀ _ b ns hSAneNS (hponly2 o₀ ho₀s ho₀managed ho₀prim)
      refine ⟨accountOf .kubectl s2 o₀, ?_, ?_, ?_, ?_⟩
      · rw [get_primary_eq, hfp]
      · rw [accountOf_name, ho₀name]
      · rw [accountOf_ns, ho₀ns]
      · show isPrimaryLabeled o₀ = true
        exact ho₀prim

/-- C1 witness: electing `a` then `b` on a two-account cluster without any
initial primary. -/
theorem C1_primary_exclusivity_amended_witness :
    ∃ s1 s2,
      registry_set_primary .kubectl ("ns" ++ ":" ++ "a") none c1WitState
        = .ok ("ns" ++ ":" ++ "a", s1)
      ∧ registry_set_primary .kubectl ("ns" ++ ":" ++ "b") none s1
        = .ok ("ns" ++ ":" ++ "b", s2)
      ∧ (∃ oB', findObj s2 .SERVICEACCOUNT "b" "ns" = some oB'
          ∧ isManagedSA oB' = true ∧ isPrimaryLabeled oB' = true)
      ∧ (∀ oA', findObj s2 .SERVICEACCOUNT "a" "ns" = some oA' →
          isPrimaryLabeled oA' = false)
      ∧ (∀ o ∈ s2, isManagedSA o = true → isPrimaryLabeled o = true →
          objKey o = (.SERVICEACCOUNT, "b", "ns"))
      ∧ (∃ acc, registry_get_primary .kubectl (some "ns") s2 = .ok (some acc)
          ∧ acc.name = "b" ∧ acc.namespace' = "ns" ∧ acc.primary = true) :=
  C1_primary_exclusivity_amended c1WitState "ns" "a" "b"
    (by decide) (by decide) (by decide) (by decide)
    (by unfold NodupKeys; decide)
    ⟨saObj "a" "ns" (some [mgLbl]), by decide, by decide⟩
    ⟨saObj "b" "ns" (some [mgLbl]), by decide, by decide⟩
    ⟨rbObj "a-role-binding" "ns" (some []), by decide⟩
    ⟨rbObj "b-role-binding" "ns" (some []), by decide⟩
    (by
      intro o ho hm hpr
      exfalso
      simp only [c1WitState] at ho
      rcases List.mem_cons.mp ho with h | ho
      · subst h; exact absurd hpr (by decide)
      · rcases List.mem_cons.mp ho with h | ho
        · subst h; exact absurd hpr (by decide)
        · rcases List.mem_cons.mp ho with h | ho
          · subst h; exact absurd hpr (by decide)
          · rcases List.mem_cons.mp ho with h | ho
            · subst h; exact absurd hpr (by decide)
            · exact absurd ho (List.not_mem_nil o))
    (by
      intro o ho hm hpr
      exfalso
      simp only [c1WitState] at ho
      rcases List.mem_cons.mp ho with h | ho
      · subst h; exact absurd hpr (by decide)
      · rcases List.mem_cons.mp ho with h | ho
        · subst h; exact absurd hpr (by decide)
        · rcases List.mem_cons.mp ho with h | ho
          · subst h; exact absurd hpr (by decide)
          · rcases List.mem_cons.mp ho with h | ho
            · subst h; exact absurd hpr (by decide)
            · exact absurd ho (List.not_mem_nil o))

end Spark8t
